import Mathlib

/-!
# Verification of the SPED ingestion / apportionment core of `contabilize`

Shallow embedding of the core of `scripts/sped_service.py` (together with the
data model of `scripts/database.py`, the company resolution of
`scripts/empresa_service.py` and the validators of `scripts/validators.py`).

Modelling conventions:

* Python `float` money arithmetic is modelled by exact rational arithmetic
  (`Rat`).  Because the library's `Rat.add`/`Rat.mul`/... are `@[irreducible]`
  and hence opaque to kernel evaluation, the model uses the kernel-evaluable
  operations `qadd`, `qsub`, `qmul`, `qdiv`, `qsum` below, each proved equal
  to the corresponding field operation on `Rat` (`qadd_eq`, ...).  Theorems
  are stated with the ordinary field operations.
* The SQLAlchemy/SQLite storage is modelled as in-memory lists of rows with
  per-table autoincrement counters; `insert ... on_conflict_do_nothing` is
  modelled row by row (batching in chunks has no observable effect on the
  resulting rows and is therefore not modelled).
* Strings are processed on `List Char` with structurally recursive helpers
  mirroring Python's `str.strip`/`str.split('|')`/`str.replace`.
-/

/-! ## Kernel-evaluable rational arithmetic -/

/-- Evaluable form of `Rat` addition (the library's `Rat.add` is
`@[irreducible]`).  Proved equal to `a + b` in `qadd_eq`. -/
def qadd (a b : Rat) : Rat := mkRat (a.num * b.den + b.num * a.den) (a.den * b.den)

/-- Evaluable form of `Rat` subtraction.  Proved equal to `a - b` in `qsub_eq`. -/
def qsub (a b : Rat) : Rat := mkRat (a.num * b.den - b.num * a.den) (a.den * b.den)

/-- Evaluable form of `Rat` multiplication.  Proved equal to `a * b` in `qmul_eq`. -/
def qmul (a b : Rat) : Rat := mkRat (a.num * b.num) (a.den * b.den)

/-- Evaluable form of `Rat` division (with the `x / 0 = 0` convention).
Proved equal to `a / b` in `qdiv_eq`. -/
def qdiv (a b : Rat) : Rat := mkRat (a.num * b.den * b.num.sign) (a.den * b.num.natAbs)

/-- Evaluable left fold of `qadd`, modelling Python's `sum(...)`.
Proved equal to `List.sum` in `qsum_eq`. -/
def qsum (l : List Rat) : Rat := l.foldl qadd 0

theorem qadd_eq (a b : Rat) : qadd a b = a + b := by
  rw [qadd, Rat.mkRat_eq_div]
  have ha : ((a.den : Rat)) ≠ 0 := by positivity
  have hb : ((b.den : Rat)) ≠ 0 := by positivity
  conv_rhs => rw [← Rat.num_div_den a, ← Rat.num_div_den b]
  push_cast
  field_simp

theorem qsub_eq (a b : Rat) : qsub a b = a - b := by
  rw [qsub, Rat.mkRat_eq_div]
  have ha : ((a.den : Rat)) ≠ 0 := by positivity
  have hb : ((b.den : Rat)) ≠ 0 := by positivity
  conv_rhs => rw [← Rat.num_div_den a, ← Rat.num_div_den b]
  push_cast
  field_simp
  ring

theorem qmul_eq (a b : Rat) : qmul a b = a * b := by
  rw [qmul, Rat.mkRat_eq_div]
  have ha : ((a.den : Rat)) ≠ 0 := by positivity
  have hb : ((b.den : Rat)) ≠ 0 := by positivity
  conv_rhs => rw [← Rat.num_div_den a, ← Rat.num_div_den b]
  push_cast
  field_simp

theorem qdiv_eq (a b : Rat) : qdiv a b = a / b := by
  rcases eq_or_ne b 0 with rfl | hb
  · simp [qdiv]
  · have hnum : b.num ≠ 0 := Rat.num_ne_zero.mpr hb
    have hden : ((b.den : Rat)) ≠ 0 := by positivity
    have haden : ((a.den : Rat)) ≠ 0 := by positivity
    rw [qdiv, Rat.mkRat_eq_div]
    have hb' : (b : Rat) = (b.num : Rat) / (b.den : Rat) := (Rat.num_div_den b).symm
    conv_rhs => rw [← Rat.num_div_den a, hb']
    have hbnum : ((b.num : Rat)) ≠ 0 := Int.cast_ne_zero.mpr hnum
    rcases lt_trichotomy b.num 0 with hlt | heq | hgt
    · have hsign : b.num.sign = -1 := Int.sign_eq_neg_one_of_neg hlt
      have habsQ : ((b.num.natAbs : Rat)) = -((b.num : Rat)) := by
        rw [Int.cast_natAbs]
        exact_mod_cast abs_of_neg hlt
      rw [hsign]
      push_cast
      rw [habsQ]
      field_simp
    · exact absurd heq hnum
    · have hsign : b.num.sign = 1 := Int.sign_eq_one_of_pos hgt
      have habsQ : ((b.num.natAbs : Rat)) = ((b.num : Rat)) := by
        rw [Int.cast_natAbs]
        exact_mod_cast abs_of_pos hgt
      rw [hsign]
      push_cast
      rw [habsQ]
      field_simp

theorem foldl_qadd_eq (l : List Rat) (acc : Rat) : l.foldl qadd acc = acc + l.sum := by
  induction l generalizing acc with
  | nil => simp
  | cons a l ih => simp [List.foldl_cons, qadd_eq, ih, add_assoc]

theorem qsum_eq (l : List Rat) : qsum l = l.sum := by
  simp [qsum, foldl_qadd_eq]

/-! ## Python string primitives

`pyStrip` models `str.strip()` (Python whitespace: space, tab, newline,
carriage return, vertical tab `\x0b`, form feed `\x0c`), `splitPipe` models
`str.split("|")`. -/

def pyIsSpace (c : Char) : Bool :=
  c = ' ' || c = '\t' || c = '\n' || c = '\r' || c.toNat = 11 || c.toNat = 12

def pyStripChars (cs : List Char) : List Char :=
  ((cs.dropWhile pyIsSpace).reverse.dropWhile pyIsSpace).reverse

def pyStrip (s : String) : String := String.mk (pyStripChars s.data)

def splitPipeAux : List Char → List Char → List String
  | [], acc => [String.mk acc.reverse]
  | c :: rest, acc =>
      if c = '|' then String.mk acc.reverse :: splitPipeAux rest []
      else splitPipeAux rest (c :: acc)

/-- Python `line.split("|")`: always returns at least one field; a leading or
trailing `|` produces an empty leading/trailing field. -/
def splitPipe (s : String) : List String := splitPipeAux s.data []

/-- `fields[i]` under a length guard already checked by the caller
(Python would raise `IndexError` out of range; all accesses in the modelled
code are guarded by explicit `len(fields)` checks). -/
def getF (fields : List String) (i : Nat) : String := fields.getD i ""

def digitsToNat (cs : List Char) : Nat :=
  cs.foldl (fun n c => n * 10 + (c.toNat - 48)) 0

/-- The decimal fragment of Python's `float(str)` used by the SPED importer:
optional sign, digits with at most one `.`, at least one digit overall
(`float()` also accepts exponent notation and `inf`/`nan`, which cannot reach
this code because `parse_float` first removes every `.` from a numeric field
and turns `,` into `.`, and non-numeric text fails and becomes 0.0). -/
def parseDecimal (cs : List Char) : Option Rat :=
  let sign : Rat := match cs with
    | '-' :: _ => -1
    | _ => 1
  let body : List Char := match cs with
    | '-' :: rest => rest
    | '+' :: rest => rest
    | rest => rest
  let intPart := body.takeWhile (fun c => c ≠ '.')
  let rest := body.dropWhile (fun c => c ≠ '.')
  match rest with
  | [] =>
      if intPart ≠ [] && intPart.all Char.isDigit then
        some (qmul sign (mkRat (digitsToNat intPart) 1))
      else none
  | _ :: frac =>
      if (intPart ≠ [] || frac ≠ []) && intPart.all Char.isDigit
          && frac.all Char.isDigit then
        some (qmul sign
          (qadd (mkRat (digitsToNat intPart) 1) (mkRat (digitsToNat frac) (10 ^ frac.length))))
      else none

/-- `parse_float` of `import_sped_file` (sped_service.py): strip, remove every
thousands `.`, turn decimal `,` into `.`, parse; blank or unparsable gives 0.0. -/
def parse_float (value : String) : Rat :=
  let s := pyStripChars value.data
  if s = [] then 0
  else
    match parseDecimal ((s.filter (fun c => c ≠ '.')).map (fun c => if c = ',' then '.' else c)) with
    | some q => q
    | none => 0

/-! ## Dates -/

structure Date where
  year : Nat
  month : Nat
  day : Nat
deriving DecidableEq, Repr

def daysInMonth (y m : Nat) : Nat :=
  if m = 2 then (if (y % 4 = 0 && y % 100 ≠ 0) || y % 400 = 0 then 29 else 28)
  else if m = 4 || m = 6 || m = 9 || m = 11 then 30 else 31

/-- `datetime.strptime(s, "%d%m%Y").date()` restricted to the canonical
zero-padded 8-digit `DDMMYYYY` form of the SPED layout; `none` models the
`ValueError` raised on a malformed date. -/
def parseDateDDMMYYYY (s : String) : Option Date :=
  let cs := s.data
  if cs.length = 8 && cs.all Char.isDigit then
    let d := digitsToNat (cs.take 2)
    let m := digitsToNat ((cs.drop 2).take 2)
    let y := digitsToNat (cs.drop 4)
    if 1 ≤ m && m ≤ 12 && 1 ≤ d && d ≤ daysInMonth y m then some ⟨y, m, d⟩ else none
  else none

def pad2 (n : Nat) : String := if n < 10 then "0" ++ toString n else toString n

def pad4 (n : Nat) : String :=
  if n < 10 then "000" ++ toString n
  else if n < 100 then "00" ++ toString n
  else if n < 1000 then "0" ++ toString n
  else toString n

/-- `strftime("%Y-%m", data)` used for competency filtering. -/
def formatYM (d : Date) : String := pad4 d.year ++ "-" ++ pad2 d.month

/-- Lexicographic `≤` on code points, the order Python's `sorted` uses on `str`. -/
def charsLe : List Char → List Char → Bool
  | [], _ => true
  | _ :: _, [] => false
  | a :: as, b :: bs =>
      if a.toNat < b.toNat then true
      else if b.toNat < a.toNat then false
      else charsLe as bs

def dateLe (a b : Date) : Bool :=
  if a.year < b.year then true
  else if b.year < a.year then false
  else if a.month < b.month then true
  else if b.month < a.month then false
  else a.day ≤ b.day

/-- Stable insertion used by `sortBy`. -/
def insertSorted {α : Type} (le : α → α → Bool) (a : α) : List α → List α
  | [] => [a]
  | b :: rest => if le a b then a :: b :: rest else b :: insertSorted le a rest

/-- Stable sort modelling Python's `sorted`/`list.sort`. -/
def sortBy {α : Type} (le : α → α → Bool) : List α → List α
  | [] => []
  | a :: rest => insertSorted le a (sortBy le rest)

/-! ## Record parser (`import_sped_file`, sped_service.py lines 102-218)

One raw record per surviving line; the "current fiscal document" context is
the single mutable variable `current_doc_fiscal` of the source. -/

structure ProdutoRaw where
  codigo_item : String
  descricao_item : String
  unidade : String
  ncm : String
deriving DecidableEq, Repr

structure DocRaw where
  num_documento : String
  serie : String
  data : Date
  valor_total : Rat
  ind_oper : String
  ind_pagamento : String
deriving DecidableEq, Repr

structure VendaRaw where
  num_documento : String
  serie : String
  data : Date
  codigo_item : String
  quantidade : Rat
  valor_unitario : Rat
  valor_total : Rat
  valor_desconto : Rat
  base_icms : Rat
  valor_icms : Rat
  aliquota_icms : Rat
deriving DecidableEq, Repr

/-- The `empresa_sped` dict filled from record 0000. -/
structure EmpresaSped where
  cnpj : Option String
  razao_social : Option String
  inscricao_estadual : Option String
  uf : Option String
deriving DecidableEq, Repr

structure ParseState where
  produtos_raw : List ProdutoRaw
  vendas_raw : List VendaRaw
  documentos_raw : List DocRaw
  erros : Nat
  empresa_sped : EmpresaSped
  current_doc : Option DocRaw
deriving DecidableEq, Repr

def initParseState : ParseState :=
  { produtos_raw := [], vendas_raw := [], documentos_raw := [], erros := 0,
    empresa_sped := ⟨none, none, none, none⟩, current_doc := none }

/--
One iteration of the line loop of `import_sped_file`.

* Blank lines and lines with fewer than 2 pipe-fields are skipped.
* `0000`: with at least 9 fields, fills `empresa_sped` (razão social, CNPJ,
  UF, inscrição estadual; an empty raw field keeps `None`, razão social falls
  back to "Empresa Desconhecida").
* `C100`: resets the context; only an outbound (`fields[2] == "1"`) header
  with a non-blank date populates it and appends to `documentos_raw`; a
  malformed date raises inside the `try`, which increments the error log and
  leaves `current_doc_fiscal` with its previous value (the assignment never
  completes); every other `C100` sets the context to `None`.
* `0200`: kept only when code, description and unit are all non-blank.
* `C170`: dropped without a current document, with fewer than 8 fields, with
  parsed quantity ≤ 0, or with a blank item code.
-/
def processFields (st : ParseState) (fields : List String) : ParseState :=
  let reg_type := getF fields 1
  if reg_type = "0000" then
        if fields.length ≥ 9 then
          { st with empresa_sped :=
            { razao_social := some (if getF fields 6 ≠ "" then pyStrip (getF fields 6)
                else "Empresa Desconhecida"),
              cnpj := if getF fields 7 ≠ "" then some (pyStrip (getF fields 7)) else none,
              uf := if fields.length > 9 && getF fields 9 ≠ "" then some (pyStrip (getF fields 9))
                else none,
              inscricao_estadual := if fields.length > 10 && getF fields 10 ≠ "" then
                some (pyStrip (getF fields 10)) else none } }
        else st
      else if reg_type = "C100" then
        if fields.length > 13 && getF fields 2 = "1" && pyStrip (getF fields 10) ≠ "" then
          match parseDateDDMMYYYY (getF fields 10) with
          | some dt =>
              let doc : DocRaw :=
                { num_documento := pyStrip (getF fields 8),
                  serie := if getF fields 7 ≠ "" then pyStrip (getF fields 7) else "1",
                  data := dt,
                  valor_total := parse_float (getF fields 12),
                  ind_oper := pyStrip (getF fields 2),
                  ind_pagamento := pyStrip (getF fields 13) }
              { st with documentos_raw := st.documentos_raw ++ [doc], current_doc := some doc }
          | none => { st with erros := st.erros + 1 }
        else
          { st with current_doc := none }
      else if reg_type = "0200" then
        if fields.length < 9 then st
        else
          let p : ProdutoRaw :=
            { codigo_item := pyStrip (getF fields 2),
              descricao_item := pyStrip (getF fields 3),
              unidade := pyStrip (getF fields 6),
              ncm := pyStrip (getF fields 8) }
          if p.codigo_item ≠ "" && p.descricao_item ≠ "" && p.unidade ≠ "" then
            { st with produtos_raw := st.produtos_raw ++ [p] }
          else st
      else if reg_type = "C170" then
        match st.current_doc with
        | none => st
        | some doc =>
            if fields.length < 8 then st
            else
              let quantidade := parse_float (getF fields 5)
              if quantidade ≤ 0 then st
              else
                let valor_item := parse_float (getF fields 7)
                let valor_desconto := if fields.length > 8 then parse_float (getF fields 8) else 0
                let v : VendaRaw :=
                  { num_documento := doc.num_documento,
                    serie := doc.serie,
                    data := doc.data,
                    codigo_item := pyStrip (getF fields 3),
                    quantidade := quantidade,
                    valor_unitario := if quantidade ≠ 0 then qdiv valor_item quantidade else 0,
                    valor_total := qsub valor_item valor_desconto,
                    valor_desconto := valor_desconto,
                    base_icms := if fields.length > 13 then parse_float (getF fields 13) else 0,
                    valor_icms := if fields.length > 14 then parse_float (getF fields 14) else 0,
                    aliquota_icms := if fields.length > 15 then parse_float (getF fields 15) else 0 }
                if v.codigo_item ≠ "" then { st with vendas_raw := st.vendas_raw ++ [v] }
                else st
      else st

def processLine (st : ParseState) (line : String) : ParseState :=
  let t := pyStrip line
  if t = "" then st
  else
    let fields := splitPipe t
    if fields.length < 2 then st
    else processFields st fields

def parseLines (lines : List String) : ParseState :=
  lines.foldl processLine initParseState

/-! ## Deduplication (`import_sped_file`, lines 220-230)

Python builds `{key: record for record in raw}` and takes `.values()`:
insertion-ordered, the last occurrence of a key wins. -/

/-- Assignment `m[k] = v` on an insertion-ordered association list
(Python dict semantics): replaces the value of an existing key in place,
otherwise appends. -/
def dictInsert {κ α : Type} [DecidableEq κ] : List (κ × α) → κ → α → List (κ × α)
  | [], k, v => [(k, v)]
  | kv :: rest, k, v => if kv.1 = k then (k, v) :: rest else kv :: dictInsert rest k v

/-- `{key(a): a for a in l}` as an insertion-ordered association list. -/
def dictOfList {κ α : Type} [DecidableEq κ] (key : α → κ) (l : List α) : List (κ × α) :=
  l.foldl (fun m a => dictInsert m (key a) a) []

/-- `m.get(k)` on an association list. -/
def dictFind {κ α : Type} [DecidableEq κ] (m : List (κ × α)) (k : κ) : Option α :=
  (m.find? (fun kv => kv.1 = k)).map Prod.snd

/-- `list({key(a): a for a in l}.values())`. -/
def dedupLast {κ α : Type} [DecidableEq κ] (key : α → κ) (l : List α) : List α :=
  (dictOfList key l).map Prod.snd

def produtoKey (p : ProdutoRaw) : String := p.codigo_item

def docKey (d : DocRaw) : String × String := (d.num_documento, d.serie)

def vendaKey (v : VendaRaw) : String × String × String :=
  (v.num_documento, v.serie, v.codigo_item)

/-! ## Database rows (`scripts/database.py`) -/

structure EmpresaRow where
  id : Nat
  cnpj : String
  razao_social : String
  inscricao_estadual : Option String
  uf : Option String
deriving DecidableEq, Repr

structure DocumentoRow where
  id : Nat
  empresa_id : Nat
  num_documento : String
  serie : String
  data : Date
  valor_total : Rat
  ind_oper : String
  ind_pagamento : String
  data_importacao : Date
deriving DecidableEq, Repr

structure ProdutoRow where
  id : Nat
  empresa_id : Nat
  codigo_item : String
  descricao_item : String
  unidade : String
  ncm : String
  acumulador_id : Option Nat
  data_alteracao : Option Date
deriving DecidableEq, Repr

structure VendaRow where
  id : Nat
  documento_id : Nat
  produto_id : Nat
  data : Date
  quantidade : Rat
  valor_unitario : Rat
  valor_total : Rat
  valor_desconto : Rat
  base_icms : Rat
  valor_icms : Rat
  aliquota_icms : Rat
  data_importacao : Date
deriving DecidableEq, Repr

structure AcumuladorRow where
  id : Nat
  empresa_id : Nat
  codigo : String
  descricao : String
  cfop_id : Nat
deriving DecidableEq, Repr

structure CfopRow where
  id : Nat
  empresa_id : Nat
  cfop : String
  descricao : String
deriving DecidableEq, Repr

/-- The SQLite database: one list of rows per table (in rowid order — SQLite
returns unordered SELECTs in insertion order for these append-only tables)
plus one autoincrement counter per table. -/
structure DB where
  empresas : List EmpresaRow
  documentos : List DocumentoRow
  produtos : List ProdutoRow
  vendas : List VendaRow
  acumuladores : List AcumuladorRow
  cfops : List CfopRow
  next_empresa_id : Nat
  next_documento_id : Nat
  next_produto_id : Nat
  next_venda_id : Nat
deriving DecidableEq, Repr

def emptyDB : DB :=
  { empresas := [], documentos := [], produtos := [], vendas := [],
    acumuladores := [], cfops := [],
    next_empresa_id := 1, next_documento_id := 1, next_produto_id := 1, next_venda_id := 1 }

/-! ## Company resolution (`empresa_service.get_or_create_empresa`) -/

/-- `"".join(filter(str.isdigit, cnpj))`. -/
def cnpj_limpo (cnpj : String) : String := String.mk (cnpj.data.filter Char.isDigit)

/--
`get_or_create_empresa`: look the company up by normalized CNPJ, create it if
absent.  Returns `((row, is_new), db)`.  The `IntegrityError` race-condition
branch of the source cannot fire in this single-request model (the insert is
only attempted when no row with the CNPJ exists).
-/
def get_or_create_empresa (db : DB) (cnpj razao_social : String)
    (inscricao_estadual uf : Option String) : (EmpresaRow × Bool) × DB :=
  match db.empresas.find? (fun e => e.cnpj = cnpj_limpo cnpj) with
  | some e => ((e, false), db)
  | none =>
      ((⟨db.next_empresa_id, cnpj_limpo cnpj, razao_social, inscricao_estadual, uf⟩, true),
       { db with
          empresas := db.empresas ++
            [⟨db.next_empresa_id, cnpj_limpo cnpj, razao_social, inscricao_estadual, uf⟩],
          next_empresa_id := db.next_empresa_id + 1 })

/-! ## Bulk loader (`import_sped_file`, lines 285-432)

`insert(...).values(chunk).on_conflict_do_nothing(index_elements=...)` is
modelled row by row: a row whose natural key already exists is skipped,
otherwise it is appended with the next surrogate id.  SQLite processes the
rows of one statement sequentially, so chunking is unobservable. -/

def produtoExists (db : DB) (eid : Nat) (codigo : String) : Bool :=
  db.produtos.any (fun r => r.empresa_id = eid && r.codigo_item = codigo)

def insertProdutoIgnore (db : DB) (eid : Nat) (p : ProdutoRaw) : DB :=
  if produtoExists db eid p.codigo_item then db
  else { db with
    produtos := db.produtos ++
      [⟨db.next_produto_id, eid, p.codigo_item, p.descricao_item, p.unidade, p.ncm, none, none⟩],
    next_produto_id := db.next_produto_id + 1 }

def insertProdutosIgnore (db : DB) (eid : Nat) (ps : List ProdutoRaw) : DB :=
  ps.foldl (fun d p => insertProdutoIgnore d eid p) db

def docExists (db : DB) (eid : Nat) (num serie : String) : Bool :=
  db.documentos.any (fun r => r.empresa_id = eid && r.num_documento = num && r.serie = serie)

def insertDocIgnore (db : DB) (eid : Nat) (today : Date) (d : DocRaw) : DB :=
  if docExists db eid d.num_documento d.serie then db
  else { db with
    documentos := db.documentos ++
      [⟨db.next_documento_id, eid, d.num_documento, d.serie, d.data, d.valor_total,
        d.ind_oper, d.ind_pagamento, today⟩],
    next_documento_id := db.next_documento_id + 1 }

def insertDocsIgnore (db : DB) (eid : Nat) (today : Date) (ds : List DocRaw) : DB :=
  ds.foldl (fun db' d => insertDocIgnore db' eid today d) db

/-- The dict `{(num_documento, serie): id}` built from the documents of the
resolved company (lines 346-355); Python dict building makes the last matching
row win, hence the `reverse`. -/
def doc_map_find (documentos : List DocumentoRow) (eid : Nat) (num serie : String) : Option Nat :=
  ((documentos.filter (fun d => d.empresa_id = eid)).reverse.find?
    (fun d => d.num_documento = num && d.serie = serie)).map (fun d => d.id)

/-- The dict `{codigo_item: id}` built from the products of the resolved
company (lines 357-365). -/
def produto_map_find (produtos : List ProdutoRow) (eid : Nat) (codigo : String) : Option Nat :=
  ((produtos.filter (fun p => p.empresa_id = eid)).reverse.find?
    (fun p => p.codigo_item = codigo)).map (fun p => p.id)

/-- One `venda_corrigida` dict (lines 377-389): the raw sale with its natural
keys replaced by surrogate ids, plus `data_importacao = date.today()`. -/
structure VendaPending where
  documento_id : Nat
  produto_id : Nat
  data : Date
  quantidade : Rat
  valor_unitario : Rat
  valor_total : Rat
  valor_desconto : Rat
  base_icms : Rat
  valor_icms : Rat
  aliquota_icms : Rat
  data_importacao : Date
deriving DecidableEq, Repr

def mkVendaPending (v : VendaRaw) (doc_id produto_id : Nat) (today : Date) : VendaPending :=
  { documento_id := doc_id, produto_id := produto_id, data := v.data,
    quantidade := v.quantidade, valor_unitario := v.valor_unitario,
    valor_total := v.valor_total, valor_desconto := v.valor_desconto,
    base_icms := v.base_icms, valor_icms := v.valor_icms,
    aliquota_icms := v.aliquota_icms, data_importacao := today }

/-- Lines 369-390: build `vendas_com_fk`; a sale whose document or product id
does not resolve is silently dropped.  `if doc_id and produto_id` is Python
integer truthiness, hence the extra `≠ 0` tests (ids are allocated from 1, so
they never fire on rows created by this model). -/
def vendas_com_fk (documentos : List DocumentoRow) (produtos : List ProdutoRow)
    (eid : Nat) (vs : List VendaRaw) (today : Date) : List VendaPending :=
  vs.filterMap (fun v =>
    match doc_map_find documentos eid v.num_documento v.serie,
          produto_map_find produtos eid v.codigo_item with
    | some doc_id, some produto_id =>
        if doc_id ≠ 0 && produto_id ≠ 0 then some (mkVendaPending v doc_id produto_id today)
        else none
    | some _, none => none
    | none, _ => none)

def vendaExists (db : DB) (doc_id produto_id : Nat) : Bool :=
  db.vendas.any (fun v => v.documento_id = doc_id && v.produto_id = produto_id)

def insertVendaIgnore (db : DB) (p : VendaPending) : DB :=
  if vendaExists db p.documento_id p.produto_id then db
  else { db with
    vendas := db.vendas ++
      [⟨db.next_venda_id, p.documento_id, p.produto_id, p.data, p.quantidade,
        p.valor_unitario, p.valor_total, p.valor_desconto, p.base_icms,
        p.valor_icms, p.aliquota_icms, p.data_importacao⟩],
    next_venda_id := db.next_venda_id + 1 }

def insertVendasIgnore (db : DB) (ps : List VendaPending) : DB :=
  ps.foldl insertVendaIgnore db

/-- `count(DocumentoFiscalSped.id) filter empresa_id` (lines 286-290). -/
def countDocs (db : DB) (eid : Nat) : Nat :=
  (db.documentos.filter (fun d => d.empresa_id = eid)).length

/-- `count(ProdutoSped.id) filter empresa_id` (lines 291-295). -/
def countProdutos (db : DB) (eid : Nat) : Nat :=
  (db.produtos.filter (fun p => p.empresa_id = eid)).length

/-- `count(VendaSped.id) join DocumentoFiscalSped filter empresa_id`
(lines 296-301): the number of (venda, documento) join pairs. -/
def countVendas (db : DB) (eid : Nat) : Nat :=
  (db.vendas.map (fun v =>
    (db.documentos.filter (fun d => d.id = v.documento_id && d.empresa_id = eid)).length)).sum

/-- The observable outcome of `import_sped_file` (its `(bool, msg, empresa_id)`
return value): each failure constructor stands for the corresponding message.
`ok` carries `(is_new_empresa, empresa_id, novos_docs, novos_produtos,
novas_vendas, len(erros))`, the data interpolated into the success message. -/
inductive ImportResult where
  | nenhumDocumento
  | semCnpj
  | empresaMismatch (arquivo_razao arquivo_cnpj selecionada_razao selecionada_cnpj : String)
  | erroInterno
  | ok (nova_empresa : Bool) (empresa_id novos_docs novos_produtos novas_vendas avisos : Nat)
deriving DecidableEq, Repr

/-- Lines 285-432: counts before, the three insert-or-ignore passes,
flush/commit, counts after. -/
def import_with_empresa (db1 : DB) (eid : Nat) (produtos : List ProdutoRaw)
    (documentos : List DocRaw) (vendas : List VendaRaw) (today : Date)
    (erros : Nat) (is_new : Bool) : ImportResult × DB :=
  let docs_antes := countDocs db1 eid
  let produtos_antes := countProdutos db1 eid
  let vendas_antes := countVendas db1 eid
  let db2 := insertProdutosIgnore db1 eid produtos
  let db3 := insertDocsIgnore db2 eid today documentos
  let pend := vendas_com_fk db3.documentos db3.produtos eid vendas today
  let db4 := insertVendasIgnore db3 pend
  (.ok is_new eid (countDocs db4 eid - docs_antes) (countProdutos db4 eid - produtos_antes)
    (countVendas db4 eid - vendas_antes) erros, db4)

/--
Lines 261-283: the branch on `is_new_empresa`.  The pre-selected-company check
lives in the `else` branch only, so it is skipped for a company created by
this very import.  `if empresa_selecionada_id` is Python truthiness, hence
`sel_id ≠ 0`.  The mismatch branch (and the defensive case of a dangling
pre-selected id, whose attribute access raises and is caught by the generic
handler) rolls back: it returns the caller's original database `db`.
-/
def import_resolved (db db1 : DB) (empresa : EmpresaRow) (is_new : Bool)
    (sel : Option Nat) (produtos : List ProdutoRaw) (documentos : List DocRaw)
    (vendas : List VendaRaw) (today : Date) (erros : Nat) : ImportResult × DB :=
  match is_new, sel with
  | true, _ => import_with_empresa db1 empresa.id produtos documentos vendas today erros true
  | false, none => import_with_empresa db1 empresa.id produtos documentos vendas today erros false
  | false, some sel_id =>
      if sel_id ≠ 0 && empresa.id ≠ sel_id then
        match db1.empresas.find? (fun e2 => e2.id = sel_id) with
        | some es =>
            (.empresaMismatch empresa.razao_social empresa.cnpj es.razao_social es.cnpj, db)
        | none => (.erroInterno, db)
      else
        import_with_empresa db1 empresa.id produtos documentos vendas today erros false

/--
`SpedService.import_sped_file`: parse, deduplicate, structural checks, company
resolution, then `import_resolved` (pre-selected-company check and bulk load).
Every failure path returns the database unchanged (the session is rolled back
or never committed).
-/
def import_sped_file (lines : List String) (empresa_selecionada_id : Option Nat)
    (today : Date) (db : DB) : ImportResult × DB :=
  let st := parseLines lines
  let produtos := dedupLast produtoKey st.produtos_raw
  let documentos := dedupLast docKey st.documentos_raw
  let vendas := dedupLast vendaKey st.vendas_raw
  if documentos.isEmpty && vendas.isEmpty then (.nenhumDocumento, db)
  else
    match st.empresa_sped.cnpj with
    | none => (.semCnpj, db)
    | some cnpj =>
        if cnpj = "" then (.semCnpj, db)
        else
          match get_or_create_empresa db cnpj
              (st.empresa_sped.razao_social.getD "Empresa Desconhecida")
              st.empresa_sped.inscricao_estadual st.empresa_sped.uf with
          | ((empresa, is_new), db1) =>
              import_resolved db db1 empresa is_new empresa_selecionada_id produtos
                documentos vendas today st.erros

/-! ## Apportionment engine (`_calcular_valor_com_rateio`, lines 992-1044) -/

/-- One sale entering the rateio, carrying its document id, the document's
declared total (`venda.documento_rel.valor_total`) and its own net value
(`venda.valor_total`); `payload` is the rest of the joined row (the Python
code passes whole ORM objects around). -/
structure RateioInput (α : Type) where
  payload : α
  documento_id : Nat
  doc_valor_total : Rat
  valor_total : Rat
deriving DecidableEq, Repr

/-- One output dict of `_calcular_valor_com_rateio`
(`{"venda", "valor_liquido", "despesas_rateadas", "valor_final"}`). -/
structure RateioOut (α : Type) where
  venda : RateioInput α
  valor_liquido : Rat
  despesas_rateadas : Rat
  valor_final : Rat
deriving DecidableEq, Repr

/-- `documentos_map[doc_id]["itens"].append(venda)` with dict insertion order:
append to the group of `k` if present, else open a new group at the end. -/
def appendGroup {α : Type} : List (Nat × List α) → Nat → α → List (Nat × List α)
  | [], k, v => [(k, [v])]
  | (k', vs) :: rest, k, v =>
      if k' = k then (k', vs ++ [v]) :: rest else (k', vs) :: appendGroup rest k v

/-- Lines 1004-1010: group the fetched sales by `documento_id`, keeping the
first-seen order of documents and the arrival order of items. -/
def groupByDoc {α : Type} (l : List (RateioInput α)) : List (Nat × List (RateioInput α)) :=
  l.foldl (fun m v => appendGroup m v.documento_id v) []

/-- Lines 1013-1042, one document: `soma_itens` is the sum of the items' net
values, `despesas_totais = documento.valor_total - soma_itens` (the document
object is the one attached to the first item of the group), and each item gets
`despesas_rateadas = despesas_totais * (valor_total / soma_itens)` when
`soma_itens > 0`, else `0`. -/
def rateioDoc {α : Type} (itens : List (RateioInput α)) : List (RateioOut α) :=
  match itens with
  | [] => []
  | first :: _ =>
      let soma_itens := qsum (itens.map (fun i => i.valor_total))
      let despesas_totais := qsub first.doc_valor_total soma_itens
      itens.map (fun item =>
        let despesas_rateadas :=
          if 0 < soma_itens then qmul despesas_totais (qdiv item.valor_total soma_itens)
          else 0
        ⟨item, item.valor_total, despesas_rateadas, qadd item.valor_total despesas_rateadas⟩)

/-- `_calcular_valor_com_rateio`: group by document, apportion per document,
concatenate in group order. -/
def calcular_valor_com_rateio {α : Type} (l : List (RateioInput α)) : List (RateioOut α) :=
  ((groupByDoc l).map (fun g => rateioDoc g.2)).flatten

deriving instance DecidableEq for Except

/-! ## Validators (`validators.validate_competencia`) -/

/-- `re.match(r"^\d{4}-\d{2}$", s)`. -/
def competenciaFormatOk (s : String) : Bool :=
  s.data.length = 7 && (s.data.take 4).all Char.isDigit
    && s.data.getD 4 ' ' = '-' && ((s.data.drop 5).all Char.isDigit)

/--
`validate_competencia`: falsy input passes through as `None`; otherwise strip
(`html.escape` and control-character removal are the identity on strings that
can pass the digit regex and are not modelled), check the `YYYY-MM` shape,
then the year (2000-2050) and month (01-12) bounds.  `Except.error` models the
raised `ValidationError` message.
-/
def validate_competencia : Option String → Except String (Option String)
  | none => .ok none
  | some c =>
      if c = "" then .ok none
      else
        let t := pyStrip c
        if t ≠ "" && t.data.length > 7 then
          .error "Competência deve ter no máximo 7 caracteres"
        else if ¬ competenciaFormatOk t then
          .error "Competência deve estar no formato YYYY-MM"
        else
          let ano := digitsToNat (t.data.take 4)
          let mes := digitsToNat (t.data.drop 5)
          if ano < 2000 || 2050 < ano then .error "Ano deve estar entre 2000 e 2050"
          else if mes < 1 || 12 < mes then .error "Mês deve estar entre 01 e 12"
          else .ok (some t)

/-! ## Report aggregators (`get_relatorio_vendas`, `get_relatorio_cfop`) -/

/-- The unclassified-product count of the report precondition (lines
1056-1063 and 1188-1195): products with a null accumulator, optionally
scoped to one company. -/
def produtos_sem_acumulador_count (db : DB) (empresa_id : Option Nat) : Nat :=
  (((db.produtos.filter (fun p => p.acumulador_id = none)).filter
    (fun p => match empresa_id with
      | some e => p.empresa_id = e
      | none => true))).length

/-- The `ValueError` message raised by both report functions when unclassified
products exist (count interpolated). -/
def msg_produtos_sem_acumulador (n : Nat) : String :=
  "Existem " ++ toString n ++
    " produto(s) sem acumulador. Por favor, associe os acumuladores na aba Produtos antes de gerar relatórios."

/-- Payload of one joined row of the by-accumulator report. -/
structure VendaAcumData where
  acumulador_codigo : String
  acumulador_descricao : String
  data : Date
deriving DecidableEq, Repr

/-- Lines 1070-1096: `VendaSped` inner-joined with `ProdutoSped`, `Acumulador`
and `DocumentoFiscalSped`, with the optional company and competency filters.
Surrogate-id lookups are `find?` (ids are unique in any database produced by
the model). -/
def joinVendasAcum (db : DB) (empresa_id : Option Nat) (competencia : Option String) :
    List (RateioInput VendaAcumData) :=
  db.vendas.filterMap (fun v =>
    match db.produtos.find? (fun p => p.id = v.produto_id) with
    | none => none
    | some p =>
        match p.acumulador_id with
        | none => none
        | some aid =>
            match db.acumuladores.find? (fun a => a.id = aid) with
            | none => none
            | some a =>
                match db.documentos.find? (fun d => d.id = v.documento_id) with
                | none => none
                | some d =>
                    if (match empresa_id with
                        | some e => d.empresa_id = e
                        | none => true)
                      && (match competencia with
                        | some comp => formatYM v.data = comp
                        | none => true) then
                      some ⟨⟨a.codigo, a.descricao, v.data⟩, v.documento_id,
                        d.valor_total, v.valor_total⟩
                    else none)

/-- `vendas_por_data[data] += valor_final` with dict insertion order. -/
def updData (m : List (Date × Rat)) (dt : Date) (vf : Rat) : List (Date × Rat) :=
  if m.any (fun x => x.1 = dt) then
    m.map (fun x => if x.1 = dt then (x.1, qadd x.2 vf) else x)
  else m ++ [(dt, vf)]

/-- One step of the accumulator grouping (lines 1106-1141): entry =
(codigo, (descricao, total, vendas_por_data)); the description is fixed when
the key is first seen. -/
def updAcum (m : List (String × String × Rat × List (Date × Rat)))
    (cod desc : String) (dt : Date) (vf : Rat) :
    List (String × String × Rat × List (Date × Rat)) :=
  if m.any (fun x => x.1 = cod) then
    m.map (fun x => if x.1 = cod then (x.1, x.2.1, qadd x.2.2.1 vf, updData x.2.2.2 dt vf) else x)
  else m ++ [(cod, desc, vf, [(dt, vf)])]

structure AcumuladorRelatorio where
  codigo : String
  descricao : String
  total : Rat
  vendas_por_data : List (Date × Rat)
deriving DecidableEq, Repr

structure RelatorioVendas where
  acumuladores : List AcumuladorRelatorio
  total_geral : Rat
deriving DecidableEq, Repr

/-- Lines 1103-1171: group apportioned values by accumulator then by date,
sort accumulators by code and each date list chronologically (the Python code
formats the date as `%d/%m/%Y` and sorts by re-parsing it, which is the
calendar order used here), and total everything. -/
def agruparPorAcumulador (items : List (RateioOut VendaAcumData)) : RelatorioVendas :=
  let data := items.foldl (fun m it =>
    updAcum m it.venda.payload.acumulador_codigo it.venda.payload.acumulador_descricao
      it.venda.payload.data it.valor_final) []
  let sorted := sortBy (fun a b => charsLe a.1.data b.1.data) data
  { acumuladores := sorted.map (fun x =>
      ⟨x.1, x.2.1, x.2.2.1, sortBy (fun u v => dateLe u.1 v.1) x.2.2.2⟩),
    total_geral := qsum (sorted.map (fun x => x.2.2.1)) }

/-- `get_relatorio_vendas` (lines 1046-1175): validate the competency, enforce
the no-unclassified-products precondition, fetch+join, apportion, group. -/
def get_relatorio_vendas (db : DB) (competencia : Option String)
    (empresa_id : Option Nat) : Except String RelatorioVendas :=
  match validate_competencia competencia with
  | .error e => .error e
  | .ok comp =>
      let n := produtos_sem_acumulador_count db empresa_id
      if 0 < n then .error (msg_produtos_sem_acumulador n)
      else
        .ok (agruparPorAcumulador
          (calcular_valor_com_rateio (joinVendasAcum db empresa_id comp)))

/-- Lines 1205-1232 of `get_relatorio_cfop`: the same join extended through
`Cfop`; the payload keeps the CFOP code reached through
produto → acumulador → cfop. -/
def joinVendasCfop (db : DB) (empresa_id : Option Nat) (competencia : Option String) :
    List (RateioInput String) :=
  db.vendas.filterMap (fun v =>
    match db.produtos.find? (fun p => p.id = v.produto_id) with
    | none => none
    | some p =>
        match p.acumulador_id with
        | none => none
        | some aid =>
            match db.acumuladores.find? (fun a => a.id = aid) with
            | none => none
            | some a =>
                match db.cfops.find? (fun cf => cf.id = a.cfop_id) with
                | none => none
                | some cf =>
                    match db.documentos.find? (fun d => d.id = v.documento_id) with
                    | none => none
                    | some d =>
                        if (match empresa_id with
                            | some e => d.empresa_id = e
                            | none => true)
                          && (match competencia with
                            | some comp => formatYM v.data = comp
                            | none => true) then
                          some ⟨cf.cfop, v.documento_id, d.valor_total, v.valor_total⟩
                        else none)

/-- Lines 1262-1309: sum apportioned values per CFOP code (the defensive
re-checks of the produto/acumulador/cfop chain always succeed on rows produced
by the inner join), then sort by code. -/
def agruparPorCfop (items : List (RateioOut String)) : List (String × Rat) :=
  let totals := items.foldl (fun m it =>
    if m.any (fun x => x.1 = it.venda.payload) then
      m.map (fun x => if x.1 = it.venda.payload then (x.1, qadd x.2 it.valor_final) else x)
    else m ++ [(it.venda.payload, it.valor_final)]) []
  sortBy (fun a b => charsLe a.1.data b.1.data) totals

/-- `get_relatorio_cfop` (lines 1177-1315). -/
def get_relatorio_cfop (db : DB) (competencia : Option String)
    (empresa_id : Option Nat) : Except String (List (String × Rat)) :=
  match validate_competencia competencia with
  | .error e => .error e
  | .ok comp =>
      let n := produtos_sem_acumulador_count db empresa_id
      if 0 < n then .error (msg_produtos_sem_acumulador n)
      else
        .ok (agruparPorCfop (calcular_valor_com_rateio (joinVendasCfop db empresa_id comp)))

/-! ## `update_produto_acumulador` (lines 785-820) -/

/-- The `(bool, msg)` outcomes of `update_produto_acumulador`; `erroInterno`
is the generic "Erro interno ao atualizar o acumulador do produto." produced
by the outer `except Exception` handler. -/
inductive UpdateAcumResult where
  | produtoNaoEncontrado
  | acumuladorNaoEncontrado
  | sucesso
  | erroInterno
deriving DecidableEq, Repr

/--
`update_produto_acumulador`: find the product by code (first match, no company
scope).  When `codigo_acumulador` is truthy, resolve it and set the product's
`acumulador_id` (and `data_alteracao`), committing.  When it is falsy
(empty), the `if codigo_acumulador:` block is skipped, so the local variable
`acumulador` of line 801 is never bound and line 809
(`acumulador.id if acumulador else None`) raises `UnboundLocalError`, which
the generic handler turns into `erroInterno` with no commit — the database is
returned unchanged.
-/
def update_produto_acumulador (db : DB) (codigo_produto codigo_acumulador : String)
    (today : Date) : UpdateAcumResult × DB :=
  match db.produtos.find? (fun p => p.codigo_item = codigo_produto) with
  | none => (.produtoNaoEncontrado, db)
  | some produto =>
      if codigo_acumulador ≠ "" then
        match db.acumuladores.find? (fun a => a.codigo = codigo_acumulador) with
        | none => (.acumuladorNaoEncontrado, db)
        | some acum =>
            (.sucesso, { db with produtos := db.produtos.map (fun p =>
              if p.id = produto.id then
                { p with acumulador_id := some acum.id, data_alteracao := some today }
              else p) })
      else
        (.erroInterno, db)

/-! # Verification

Helper lemmas first, then one theorem (with witness or counterexample where
required) per claim about the program. -/

/-! ## Rateio lemmas -/

theorem appendGroup_same {α : Type} (k : Nat) (xs : List α) (v : α) :
    appendGroup [(k, xs)] k v = [(k, xs ++ [v])] := by
  simp [appendGroup]

theorem foldl_appendGroup_single {α : Type} (d : Nat) :
    ∀ (l : List (RateioInput α)) (xs : List (RateioInput α)),
      (∀ i ∈ l, i.documento_id = d) →
      l.foldl (fun m v => appendGroup m v.documento_id v) [(d, xs)] = [(d, xs ++ l)] := by
  intro l
  induction l with
  | nil => intro xs _; simp
  | cons a l ih =>
      intro xs hall
      have ha : a.documento_id = d := hall a (List.mem_cons_self a l)
      simp only [List.foldl_cons, ha, appendGroup_same]
      rw [ih (xs ++ [a]) (fun i hi => hall i (List.mem_cons_of_mem a hi))]
      simp

theorem groupByDoc_single {α : Type} (d : Nat) (l : List (RateioInput α))
    (hall : ∀ i ∈ l, i.documento_id = d) (hne : l ≠ []) :
    groupByDoc l = [(d, l)] := by
  cases l with
  | nil => exact absurd rfl hne
  | cons a l =>
      have ha : a.documento_id = d := hall a (List.mem_cons_self a l)
      simp only [groupByDoc, List.foldl_cons]
      have h0 : appendGroup ([] : List (Nat × List (RateioInput α))) a.documento_id a
          = [(d, [a])] := by
        simp [appendGroup, ha]
      rw [h0, foldl_appendGroup_single d l [a] (fun i hi => hall i (List.mem_cons_of_mem a hi))]
      simp

theorem calcular_single {α : Type} (l : List (RateioInput α)) (d : Nat)
    (hall : ∀ i ∈ l, i.documento_id = d) (hne : l ≠ []) :
    calcular_valor_com_rateio l = rateioDoc l := by
  rw [calcular_valor_com_rateio, groupByDoc_single d l hall hne]
  simp

theorem sum_map_rateio {α : Type} (l : List (RateioInput α)) (D S : Rat) :
    (l.map (fun i => i.valor_total + D * (i.valor_total / S))).sum
      = (l.map (fun i => i.valor_total)).sum
        + D * ((l.map (fun i => i.valor_total)).sum / S) := by
  induction l with
  | nil => simp
  | cons a l ih =>
      simp only [List.map_cons, List.sum_cons, ih]
      ring

/-- C1.  For every fiscal document whose sale items have a strictly positive
sum of net values, the apportionment engine `_calcular_valor_com_rateio`
produces per-item final values whose sum is exactly the document's declared
total (exact rational arithmetic). -/
theorem claim_C1_rateio_conservation {α : Type} (l : List (RateioInput α)) (d : Nat) (V : Rat)
    (hall : ∀ i ∈ l, i.documento_id = d)
    (hV : ∀ i ∈ l, i.doc_valor_total = V)
    (hsum : 0 < (l.map (fun i => i.valor_total)).sum) :
    ((calcular_valor_com_rateio l).map (fun o => o.valor_final)).sum = V := by
  have hne : l ≠ [] := by rintro rfl; simp at hsum
  rw [calcular_single l d hall hne]
  cases l with
  | nil => exact absurd rfl hne
  | cons f rest =>
      have hVf : f.doc_valor_total = V := hV f (List.mem_cons_self f rest)
      have hS : ((f :: rest).map (fun i => i.valor_total)).sum ≠ 0 := ne_of_gt hsum
      simp only [rateioDoc, qsum_eq, qsub_eq, qadd_eq, qmul_eq, qdiv_eq, hVf,
        if_pos hsum, List.map_map, Function.comp_def]
      rw [sum_map_rateio, div_self hS]
      ring

def c1Itens : List (RateioInput Unit) := [⟨(), 1, 121, 100⟩, ⟨(), 1, 121, 0⟩]

/-- Witness for C1: document with declared total 121 and items of net values
100 and 0; the final values sum back to 121. -/
theorem claim_C1_witness :
    (∀ i ∈ c1Itens, i.documento_id = 1) ∧ (∀ i ∈ c1Itens, i.doc_valor_total = 121)
      ∧ 0 < (c1Itens.map (fun i => i.valor_total)).sum
      ∧ ((calcular_valor_com_rateio c1Itens).map (fun o => o.valor_final)).sum = 121 := by
  have hpos : 0 < (c1Itens.map (fun i => i.valor_total)).sum := by norm_num [c1Itens]
  exact ⟨by decide, by decide, hpos,
    claim_C1_rateio_conservation c1Itens 1 121 (by decide) (by decide) hpos⟩

/-- C7.  For a document whose item net values sum to zero, the engine
allocates zero overhead to every item, each final value equals the item's net
value, and when every net value is zero every final value is zero, whatever
the declared total. -/
theorem claim_C7_rateio_degenerate {α : Type} (l : List (RateioInput α)) (d : Nat)
    (hall : ∀ i ∈ l, i.documento_id = d)
    (hsum : (l.map (fun i => i.valor_total)).sum = 0) :
    calcular_valor_com_rateio l = l.map (fun i => ⟨i, i.valor_total, 0, i.valor_total⟩)
      ∧ ((∀ i ∈ l, i.valor_total = 0) →
          ∀ o ∈ calcular_valor_com_rateio l, o.valor_final = 0) := by
  have hmain : calcular_valor_com_rateio l
      = l.map (fun i => ⟨i, i.valor_total, 0, i.valor_total⟩) := by
    cases l with
    | nil => simp [calcular_valor_com_rateio, groupByDoc]
    | cons f rest =>
        have hne : (f :: rest) ≠ ([] : List (RateioInput α)) := by simp
        rw [calcular_single (f :: rest) d hall hne]
        have hneg : ¬ (0 < ((f :: rest).map (fun i => i.valor_total)).sum) := by
          rw [hsum]
          exact lt_irrefl 0
        simp only [rateioDoc, qsum_eq, qadd_eq, if_neg hneg, add_zero]
  refine ⟨hmain, fun hz o ho => ?_⟩
  rw [hmain] at ho
  obtain ⟨i, hi, rfl⟩ := List.mem_map.mp ho
  simpa using hz i hi

def c7Itens : List (RateioInput Unit) := [⟨(), 1, 121, 0⟩, ⟨(), 1, 121, 0⟩]

/-- Witness for C7: document with declared total 121 and two zero-net items:
no overhead is allocated and every final value is 0. -/
theorem claim_C7_witness :
    (c7Itens.map (fun i => i.valor_total)).sum = 0
      ∧ calcular_valor_com_rateio c7Itens
          = c7Itens.map (fun i => ⟨i, i.valor_total, 0, i.valor_total⟩)
      ∧ (∀ o ∈ calcular_valor_com_rateio c7Itens, o.valor_final = 0) := by
  have hz : (c7Itens.map (fun i => i.valor_total)).sum = 0 := by norm_num [c7Itens]
  have h := claim_C7_rateio_degenerate c7Itens 1 (by decide) hz
  exact ⟨hz, h.1, h.2 (by decide)⟩

/-! ## Parser gating (C5) -/

theorem getF_ne_imp_lt (fields : List String) (i : Nat) (h : getF fields i ≠ "") :
    i < fields.length := by
  by_contra hlt
  push_neg at hlt
  rw [getF, List.getD_eq_default _ _ hlt] at h
  exact h rfl

theorem processLine_eq_processFields (st : ParseState) (line : String)
    (h : getF (splitPipe (pyStrip line)) 1 ≠ "") :
    processLine st line = processFields st (splitPipe (pyStrip line)) := by
  have ht : pyStrip line ≠ "" := by
    intro ht
    rw [ht] at h
    exact h (by decide)
  have hlen : ¬ (splitPipe (pyStrip line)).length < 2 := by
    have := getF_ne_imp_lt _ 1 h
    omega
  simp only [processLine, if_neg ht, if_neg hlen]

/-- C5.  A `C100` header populates the current-document context (and emits a
raw document) only when its operation indicator is the outbound marker `"1"`
and its date field is non-blank — otherwise the context becomes `none`; a
`C170` line item is dropped whole while the context is `none`, and its
`vendas_raw` record is also dropped when the parsed quantity is ≤ 0 or the
item code is blank. -/
theorem claim_C5_parser_gating (st : ParseState) (line : String) :
    ((getF (splitPipe (pyStrip line)) 1 = "C100" →
        ¬ (getF (splitPipe (pyStrip line)) 2 = "1"
            ∧ pyStrip (getF (splitPipe (pyStrip line)) 10) ≠ "") →
        (processLine st line).current_doc = none
          ∧ (processLine st line).documentos_raw = st.documentos_raw))
    ∧ (getF (splitPipe (pyStrip line)) 1 = "C170" → st.current_doc = none →
        processLine st line = st)
    ∧ (getF (splitPipe (pyStrip line)) 1 = "C170" →
        parse_float (getF (splitPipe (pyStrip line)) 5) ≤ 0 →
        (processLine st line).vendas_raw = st.vendas_raw)
    ∧ (getF (splitPipe (pyStrip line)) 1 = "C170" →
        pyStrip (getF (splitPipe (pyStrip line)) 3) = "" →
        (processLine st line).vendas_raw = st.vendas_raw) := by
  refine ⟨?_, ?_, ?_, ?_⟩
  · intro h1 h2
    rw [processLine_eq_processFields st line (by rw [h1]; decide)]
    have hfalse : (decide ((splitPipe (pyStrip line)).length > 13)
        && decide (getF (splitPipe (pyStrip line)) 2 = "1")
        && decide (pyStrip (getF (splitPipe (pyStrip line)) 10) ≠ "")) = false := by
      by_cases hA : getF (splitPipe (pyStrip line)) 2 = "1"
      · by_cases hB : pyStrip (getF (splitPipe (pyStrip line)) 10) ≠ ""
        · exact absurd ⟨hA, hB⟩ h2
        · simp [hB]
      · simp [hA]
    simp only [processFields, h1, hfalse]
    simp
  · intro h1 hnone
    rw [processLine_eq_processFields st line (by rw [h1]; decide)]
    simp [processFields, h1, hnone]
  · intro h1 hq
    rw [processLine_eq_processFields st line (by rw [h1]; decide)]
    cases hcd : st.current_doc with
    | none => simp [processFields, h1, hcd]
    | some doc =>
        by_cases hlen8 : (splitPipe (pyStrip line)).length < 8
        · simp [processFields, h1, hcd, hlen8]
        · simp [processFields, h1, hcd, hlen8, hq]
  · intro h1 hcode
    rw [processLine_eq_processFields st line (by rw [h1]; decide)]
    cases hcd : st.current_doc with
    | none => simp [processFields, h1, hcd]
    | some doc =>
        by_cases hlen8 : (splitPipe (pyStrip line)).length < 8
        · simp [processFields, h1, hcd, hlen8]
        · by_cases hq : parse_float (getF (splitPipe (pyStrip line)) 5) ≤ 0
          · simp [processFields, h1, hcd, hlen8, hq]
          · simp [processFields, h1, hcd, hlen8, hq, hcode]

def c5StDoc : ParseState :=
  { initParseState with current_doc := some ⟨"100", "1", ⟨2024, 3, 10⟩, 121, "1", "0"⟩ }

def c5LineInbound : String := "|C100|0|0|P1|55|00|1|100||10032024|10032024|121,00|0|"

def c5LineItem : String := "|C170|1|A|Item A|1,000|UN|100,00|0,00|"

def c5LineQtyZero : String := "|C170|1|A|Item A|0,000|UN|100,00|0,00|"

def c5LineBlankCode : String := "|C170|1||Item A|1,000|UN|100,00|0,00|"

/-- Witness for C5 on concrete lines: an inbound `C100` nulls the context and
emits no document; a `C170` with no open document is a no-op; a `C170` with
quantity 0 or a blank item code adds no sale record. -/
theorem claim_C5_witness :
    ((processLine c5StDoc c5LineInbound).current_doc = none
      ∧ (processLine c5StDoc c5LineInbound).documentos_raw = c5StDoc.documentos_raw)
    ∧ processLine initParseState c5LineItem = initParseState
    ∧ (processLine c5StDoc c5LineQtyZero).vendas_raw = c5StDoc.vendas_raw
    ∧ (processLine c5StDoc c5LineBlankCode).vendas_raw = c5StDoc.vendas_raw := by
  refine ⟨(claim_C5_parser_gating c5StDoc c5LineInbound).1 (by decide) (by decide), ?_, ?_, ?_⟩
  · exact (claim_C5_parser_gating initParseState c5LineItem).2.1 (by decide) (by decide)
  · exact (claim_C5_parser_gating c5StDoc c5LineQtyZero).2.2.1 (by decide) (by decide)
  · exact (claim_C5_parser_gating c5StDoc c5LineBlankCode).2.2.2 (by decide) (by decide)

/-! ## Report precondition (C3) -/

/-- C3.  With a valid competency, each report call fails with the validation
error naming the exact count of unclassified products exactly when that count
is positive; with a zero count both reports are produced. -/
theorem claim_C3_report_precondition (db : DB) (comp : Option String) (eid : Option Nat)
    (comp' : Option String) (hc : validate_competencia comp = .ok comp') :
    (0 < produtos_sem_acumulador_count db eid →
        get_relatorio_vendas db comp eid
            = .error (msg_produtos_sem_acumulador (produtos_sem_acumulador_count db eid))
          ∧ get_relatorio_cfop db comp eid
            = .error (msg_produtos_sem_acumulador (produtos_sem_acumulador_count db eid)))
    ∧ (produtos_sem_acumulador_count db eid = 0 →
        (∃ r, get_relatorio_vendas db comp eid = .ok r)
          ∧ (∃ r, get_relatorio_cfop db comp eid = .ok r)) := by
  constructor
  · intro hn
    constructor
    · simp only [get_relatorio_vendas, hc, if_pos hn]
    · simp only [get_relatorio_cfop, hc, if_pos hn]
  · intro hn
    have hneg : ¬ 0 < produtos_sem_acumulador_count db eid := by omega
    exact ⟨⟨agruparPorAcumulador (calcular_valor_com_rateio (joinVendasAcum db eid comp')),
             by simp only [get_relatorio_vendas, hc, if_neg hneg]⟩,
           ⟨agruparPorCfop (calcular_valor_com_rateio (joinVendasCfop db eid comp')),
             by simp only [get_relatorio_cfop, hc, if_neg hneg]⟩⟩

/-- Concrete database shared by several witnesses: one company, one CFOP, one
accumulator, one product with no accumulator link. -/
def sampleDB : DB :=
  { emptyDB with
    empresas := [⟨1, "11222333000181", "ACME", none, none⟩],
    cfops := [⟨1, 1, "5102", ""⟩],
    acumuladores := [⟨1, 1, "VND", "Vendas", 1⟩],
    produtos := [⟨1, 1, "A", "Produto A", "UN", "12345678", none, none⟩],
    next_empresa_id := 2, next_produto_id := 2 }

/-- Witness for C3: with one unclassified product both report calls fail with
the count-1 message. -/
theorem claim_C3_witness :
    validate_competencia none = .ok none
      ∧ 0 < produtos_sem_acumulador_count sampleDB (some 1)
      ∧ get_relatorio_vendas sampleDB none (some 1)
          = .error (msg_produtos_sem_acumulador (produtos_sem_acumulador_count sampleDB (some 1)))
      ∧ get_relatorio_cfop sampleDB none (some 1)
          = .error (msg_produtos_sem_acumulador (produtos_sem_acumulador_count sampleDB (some 1))) := by
  have h := (claim_C3_report_precondition sampleDB none (some 1) none rfl).1 (by decide)
  exact ⟨rfl, by decide, h.1, h.2⟩

/-! ## Structural rejection (C8) -/

/-- C8.  When deduplication leaves no documents and no sale items, or (that
check passing) the header CNPJ is absent or blank, the import fails with the
corresponding error and the database is untouched. -/
theorem claim_C8_structural_rejection (lines : List String) (sel : Option Nat) (today : Date)
    (db : DB) :
    ((dedupLast docKey (parseLines lines).documentos_raw = []
        ∧ dedupLast vendaKey (parseLines lines).vendas_raw = []) →
      import_sped_file lines sel today db = (.nenhumDocumento, db))
    ∧ (¬ (dedupLast docKey (parseLines lines).documentos_raw = []
        ∧ dedupLast vendaKey (parseLines lines).vendas_raw = []) →
      ((parseLines lines).empresa_sped.cnpj = none
        ∨ (parseLines lines).empresa_sped.cnpj = some "") →
      import_sped_file lines sel today db = (.semCnpj, db)) := by
  constructor
  · rintro ⟨hd, hv⟩
    simp only [import_sped_file, hd, hv]
    simp
  · intro hne hcnpj
    have hcond : ¬ ((dedupLast docKey (parseLines lines).documentos_raw).isEmpty
        && (dedupLast vendaKey (parseLines lines).vendas_raw).isEmpty) = true := by
      intro hb
      obtain ⟨h1, h2⟩ := Bool.and_eq_true_iff.mp hb
      exact hne ⟨List.isEmpty_iff.mp h1, List.isEmpty_iff.mp h2⟩
    rcases hcnpj with h | h
    · simp only [import_sped_file, if_neg hcond, h]
    · simp only [import_sped_file, if_neg hcond, h]
      simp

def today0 : Date := ⟨2024, 4, 1⟩

def c8LinesEmpty : List String :=
  ["|0000|014|0|01032024|31032024|ACME LTDA|11222333000181||SP|123456789|"]

def c8LinesNoCnpj : List String :=
  ["|C100|1|0|P1|55|00|1|100||10032024|10032024|121,00|0|"]

/-- Witness for C8: a header-only file is rejected for having no documents or
items; a file with a document but no `0000` header is rejected for the missing
CNPJ.  In both cases the database is returned unchanged. -/
theorem claim_C8_witness :
    import_sped_file c8LinesEmpty none today0 emptyDB = (.nenhumDocumento, emptyDB)
      ∧ import_sped_file c8LinesNoCnpj none today0 emptyDB = (.semCnpj, emptyDB) := by
  constructor
  · exact (claim_C8_structural_rejection c8LinesEmpty none today0 emptyDB).1 (by decide)
  · exact (claim_C8_structural_rejection c8LinesNoCnpj none today0 emptyDB).2
      (by decide) (by decide)

/-! ## `update_produto_acumulador` with an empty accumulator code (C10) -/

/-- C10.  For an existing product and an empty (falsy) accumulator code,
`update_produto_acumulador` returns the generic internal-error outcome and
leaves the database — in particular the product's accumulator link —
unchanged: the clear-to-null branch is unreachable (`UnboundLocalError`
caught by the generic handler). -/
theorem claim_C10_update_acumulador_unreachable (db : DB) (codigo_produto : String)
    (today : Date) (p : ProdutoRow)
    (hp : db.produtos.find? (fun q => q.codigo_item = codigo_produto) = some p) :
    update_produto_acumulador db codigo_produto "" today = (.erroInterno, db) := by
  simp only [update_produto_acumulador, hp]
  simp

/-- Witness for C10: clearing the accumulator of the existing product `"A"`
with an empty code fails generically and changes nothing. -/
theorem claim_C10_witness :
    sampleDB.produtos.find? (fun q => q.codigo_item = "A")
        = some ⟨1, 1, "A", "Produto A", "UN", "12345678", none, none⟩
      ∧ update_produto_acumulador sampleDB "A" "" today0 = (.erroInterno, sampleDB) := by
  refine ⟨by decide, claim_C10_update_acumulador_unreachable sampleDB "A" today0
    ⟨1, 1, "A", "Produto A", "UN", "12345678", none, none⟩ (by decide)⟩

/-! ## Deduplication lemmas (C6) -/

theorem dictFind_nil {κ α : Type} [DecidableEq κ] (k : κ) :
    dictFind ([] : List (κ × α)) k = none := rfl

theorem dictFind_cons {κ α : Type} [DecidableEq κ] (kv : κ × α) (m : List (κ × α)) (k' : κ) :
    dictFind (kv :: m) k' = if kv.1 = k' then some kv.2 else dictFind m k' := by
  by_cases h : kv.1 = k' <;> simp [dictFind, List.find?_cons, h]

theorem dictInsert_keys_of_mem {κ α : Type} [DecidableEq κ] :
    ∀ (m : List (κ × α)) (k : κ) (v : α), k ∈ m.map Prod.fst →
      (dictInsert m k v).map Prod.fst = m.map Prod.fst := by
  intro m
  induction m with
  | nil => intro k v h; simp at h
  | cons kv rest ih =>
      intro k v h
      by_cases h1 : kv.1 = k
      · simp [dictInsert, h1]
      · have hk : k ∈ rest.map Prod.fst := by
          rcases List.mem_cons.mp h with h2 | h2
          · exact absurd h2.symm h1
          · exact h2
        simp [dictInsert, h1, ih k v hk]

theorem dictInsert_keys_of_not_mem {κ α : Type} [DecidableEq κ] :
    ∀ (m : List (κ × α)) (k : κ) (v : α), k ∉ m.map Prod.fst →
      (dictInsert m k v).map Prod.fst = m.map Prod.fst ++ [k] := by
  intro m
  induction m with
  | nil => intro k v _; simp [dictInsert]
  | cons kv rest ih =>
      intro k v h
      have h1 : kv.1 ≠ k := by
        intro he
        exact h (by simp [he])
      have h2 : k ∉ rest.map Prod.fst := fun hr => h (by simp [hr])
      simp [dictInsert, h1, ih k v h2]

theorem dictOfList_keys_nodup_aux {κ α : Type} [DecidableEq κ] (key : α → κ) :
    ∀ (l : List α) (m : List (κ × α)), (m.map Prod.fst).Nodup →
      ((l.foldl (fun m a => dictInsert m (key a) a) m).map Prod.fst).Nodup := by
  intro l
  induction l with
  | nil => intro m h; exact h
  | cons a l ih =>
      intro m h
      simp only [List.foldl_cons]
      apply ih
      by_cases hm : key a ∈ m.map Prod.fst
      · rw [dictInsert_keys_of_mem m (key a) a hm]
        exact h
      · rw [dictInsert_keys_of_not_mem m (key a) a hm, List.nodup_append]
        exact ⟨h, List.nodup_singleton _, by
          intro x hx hx'
          rw [List.mem_singleton] at hx'
          subst hx'
          exact hm hx⟩

theorem dictOfList_keys_nodup {κ α : Type} [DecidableEq κ] (key : α → κ) (l : List α) :
    ((dictOfList key l).map Prod.fst).Nodup :=
  dictOfList_keys_nodup_aux key l [] (by simp)

theorem dictFind_dictInsert {κ α : Type} [DecidableEq κ] :
    ∀ (m : List (κ × α)) (k : κ) (v : α) (k' : κ),
      dictFind (dictInsert m k v) k' = if k = k' then some v else dictFind m k' := by
  intro m
  induction m with
  | nil =>
      intro k v k'
      by_cases h : k = k' <;> simp [dictInsert, dictFind, List.find?_cons, h]
  | cons kv rest ih =>
      intro k v k'
      by_cases h1 : kv.1 = k
      · simp only [dictInsert, if_pos h1]
        by_cases h2 : k = k'
        · simp [dictFind_cons, h2]
        · simp [dictFind_cons, h1, h2]
      · simp only [dictInsert, if_neg h1]
        rw [dictFind_cons, dictFind_cons, ih]
        by_cases h2 : kv.1 = k'
        · have h3 : k ≠ k' := fun he => h1 (h2.symm ▸ he ▸ rfl)
          simp [h2, h3]
        · simp [h2]

theorem dictFind_foldl {κ α : Type} [DecidableEq κ] (key : α → κ) (k : κ) :
    ∀ (l : List α) (m : List (κ × α)),
      dictFind (l.foldl (fun m a => dictInsert m (key a) a) m) k
        = (l.reverse.find? (fun a => key a = k)).or (dictFind m k) := by
  intro l
  induction l with
  | nil => intro m; simp
  | cons a l ih =>
      intro m
      simp only [List.foldl_cons, List.reverse_cons]
      rw [ih, List.find?_append, Option.or_assoc]
      congr 1
      rw [dictFind_dictInsert]
      by_cases hp : key a = k
      · simp [hp]
      · simp [hp]

theorem dictFind_dictOfList {κ α : Type} [DecidableEq κ] (key : α → κ) (l : List α) (k : κ) :
    dictFind (dictOfList key l) k = l.reverse.find? (fun a => key a = k) := by
  rw [dictOfList, dictFind_foldl]
  simp [dictFind]

def c6Lines : List String :=
  [ "|0000|014|0|01032024|31032024|ACME LTDA|11222333000181||SP|123456789|",
    "|0200|A|Produto A|||UN|||12345678|",
    "|C100|1|0|P1|55|00|1|100||10032024|10032024|121,00|0|",
    "|C170|1|A|Item A|1,000|UN|100,00|0,00|",
    "|C170|2|A|Item A|1,000|UN|50,00|0,00|" ]

/-- C6.  Deduplication keeps exactly one record per natural key (the key
lists of the dedup dictionaries are duplicate-free) and the record kept is
the last occurrence in file order (lookup in the dictionary equals the first
hit in the reversed raw list), for products, documents and sale items alike;
concretely, a file with two line items sharing the (document, series, item)
key persists exactly one sale item carrying the last occurrence's value
(50, not 100). -/
theorem claim_C6_dedup_last_wins :
    (∀ (l : List ProdutoRaw), ((dictOfList produtoKey l).map Prod.fst).Nodup)
    ∧ (∀ (l : List ProdutoRaw) (k : String),
        dictFind (dictOfList produtoKey l) k = l.reverse.find? (fun p => produtoKey p = k))
    ∧ (∀ (l : List DocRaw), ((dictOfList docKey l).map Prod.fst).Nodup)
    ∧ (∀ (l : List DocRaw) (k : String × String),
        dictFind (dictOfList docKey l) k = l.reverse.find? (fun d => docKey d = k))
    ∧ (∀ (l : List VendaRaw), ((dictOfList vendaKey l).map Prod.fst).Nodup)
    ∧ (∀ (l : List VendaRaw) (k : String × String × String),
        dictFind (dictOfList vendaKey l) k = l.reverse.find? (fun v => vendaKey v = k))
    ∧ ((import_sped_file c6Lines none today0 emptyDB).2.vendas.map (fun v => v.valor_total)
          = [50]
        ∧ (import_sped_file c6Lines none today0 emptyDB).2.vendas.length = 1) :=
  ⟨fun l => dictOfList_keys_nodup produtoKey l,
   fun l k => dictFind_dictOfList produtoKey l k,
   fun l => dictOfList_keys_nodup docKey l,
   fun l k => dictFind_dictOfList docKey l k,
   fun l => dictOfList_keys_nodup vendaKey l,
   fun l k => dictFind_dictOfList vendaKey l k,
   by decide, by decide⟩

/-! ## Pre-selected-company mismatch (C2) -/

/--
Amended C2.  When the company resolved from the file's CNPJ **already
existed** before the import and differs from the non-zero pre-selected
company id, the import is rejected with a message naming both companies and
the database is unchanged.  (The original claim also covered the case of a
company created by the import itself; `claim_C2_counterexample` shows the
check is skipped there.)
-/
theorem claim_C2_mismatch_rejects_existing (lines : List String) (today : Date) (db : DB)
    (sel_id : Nat) (c : String) (e es : EmpresaRow)
    (hne : ¬ ((dedupLast docKey (parseLines lines).documentos_raw).isEmpty
        && (dedupLast vendaKey (parseLines lines).vendas_raw).isEmpty) = true)
    (hcnpj : (parseLines lines).empresa_sped.cnpj = some c) (hc : c ≠ "")
    (hfind : db.empresas.find? (fun x => x.cnpj = cnpj_limpo c) = some e)
    (hsel : sel_id ≠ 0) (hdiff : e.id ≠ sel_id)
    (hes : db.empresas.find? (fun x => x.id = sel_id) = some es) :
    import_sped_file lines (some sel_id) today db
      = (.empresaMismatch e.razao_social e.cnpj es.razao_social es.cnpj, db) := by
  have hcond : (decide (sel_id ≠ 0) && decide (e.id ≠ sel_id)) = true := by
    simp [hsel, hdiff]
  simp only [import_sped_file, if_neg hne, hcnpj, if_neg hc]
  simp only [get_or_create_empresa, hfind]
  simp only [import_resolved]
  rw [if_pos hcond, hes]

def c2Lines : List String :=
  [ "|0000|014|0|01032024|31032024|ACME LTDA|22222222222222||SP|123456789|",
    "|0200|A|Produto A|||UN|||12345678|",
    "|C100|1|0|P1|55|00|1|100||10032024|10032024|121,00|0|",
    "|C170|1|A|Item A|1,000|UN|100,00|0,00|" ]

def c2DB : DB :=
  { emptyDB with
    empresas := [⟨1, "11111111111111", "OUTRA EMPRESA", none, none⟩],
    next_empresa_id := 2 }

/-- Counterexample to C2 as stated: company 1 is pre-selected, the file's
CNPJ names a company that does not exist yet; the resolved company (the newly
created id 2) differs from the pre-selected one, yet the import is **not**
rejected — it succeeds, registers the new company and persists a document, a
product and a sale item. -/
theorem claim_C2_counterexample :
    (import_sped_file c2Lines (some 1) today0 c2DB).1 = .ok true 2 1 1 1 0
      ∧ (import_sped_file c2Lines (some 1) today0 c2DB).2.vendas.length = 1
      ∧ (import_sped_file c2Lines (some 1) today0 c2DB).2 ≠ c2DB := by decide

def c2DBBoth : DB :=
  { emptyDB with
    empresas := [⟨1, "11111111111111", "OUTRA EMPRESA", none, none⟩,
                 ⟨2, "22222222222222", "ACME LTDA", none, none⟩],
    next_empresa_id := 3 }

/-- Witness for the amended C2: both companies exist, company 1 is
pre-selected, the file belongs to company 2 — the import is rejected with a
message naming both companies and the database is unchanged. -/
theorem claim_C2_witness :
    import_sped_file c2Lines (some 1) today0 c2DBBoth
      = (.empresaMismatch "ACME LTDA" "22222222222222" "OUTRA EMPRESA" "11111111111111",
         c2DBBoth) :=
  claim_C2_mismatch_rejects_existing c2Lines today0 c2DBBoth 1 "22222222222222"
    ⟨2, "22222222222222", "ACME LTDA", none, none⟩
    ⟨1, "11111111111111", "OUTRA EMPRESA", none, none⟩
    (by decide) (by decide) (by decide) (by decide) (by decide) (by decide) (by decide)

/-! ## Bulk-loader lemmas (used for C4 and C9) -/

theorem insertProdutoIgnore_documentos (db : DB) (eid : Nat) (p : ProdutoRaw) :
    (insertProdutoIgnore db eid p).documentos = db.documentos := by
  by_cases h : produtoExists db eid p.codigo_item <;> simp [insertProdutoIgnore, h]

theorem insertProdutoIgnore_vendas (db : DB) (eid : Nat) (p : ProdutoRaw) :
    (insertProdutoIgnore db eid p).vendas = db.vendas := by
  by_cases h : produtoExists db eid p.codigo_item <;> simp [insertProdutoIgnore, h]

theorem insertProdutoIgnore_empresas (db : DB) (eid : Nat) (p : ProdutoRaw) :
    (insertProdutoIgnore db eid p).empresas = db.empresas := by
  by_cases h : produtoExists db eid p.codigo_item <;> simp [insertProdutoIgnore, h]

theorem insertProdutosIgnore_documentos (eid : Nat) :
    ∀ (ps : List ProdutoRaw) (db : DB),
      (insertProdutosIgnore db eid ps).documentos = db.documentos := by
  intro ps
  induction ps with
  | nil => intro db; rfl
  | cons p ps ih =>
      intro db
      show (insertProdutosIgnore (insertProdutoIgnore db eid p) eid ps).documentos = _
      rw [ih, insertProdutoIgnore_documentos]

theorem insertProdutosIgnore_vendas (eid : Nat) :
    ∀ (ps : List ProdutoRaw) (db : DB), (insertProdutosIgnore db eid ps).vendas = db.vendas := by
  intro ps
  induction ps with
  | nil => intro db; rfl
  | cons p ps ih =>
      intro db
      show (insertProdutosIgnore (insertProdutoIgnore db eid p) eid ps).vendas = _
      rw [ih, insertProdutoIgnore_vendas]

theorem insertProdutosIgnore_empresas (eid : Nat) :
    ∀ (ps : List ProdutoRaw) (db : DB), (insertProdutosIgnore db eid ps).empresas = db.empresas := by
  intro ps
  induction ps with
  | nil => intro db; rfl
  | cons p ps ih =>
      intro db
      show (insertProdutosIgnore (insertProdutoIgnore db eid p) eid ps).empresas = _
      rw [ih, insertProdutoIgnore_empresas]

theorem insertDocIgnore_produtos (db : DB) (eid : Nat) (t : Date) (d : DocRaw) :
    (insertDocIgnore db eid t d).produtos = db.produtos := by
  by_cases h : docExists db eid d.num_documento d.serie <;> simp [insertDocIgnore, h]

theorem insertDocIgnore_vendas (db : DB) (eid : Nat) (t : Date) (d : DocRaw) :
    (insertDocIgnore db eid t d).vendas = db.vendas := by
  by_cases h : docExists db eid d.num_documento d.serie <;> simp [insertDocIgnore, h]

theorem insertDocIgnore_empresas (db : DB) (eid : Nat) (t : Date) (d : DocRaw) :
    (insertDocIgnore db eid t d).empresas = db.empresas := by
  by_cases h : docExists db eid d.num_documento d.serie <;> simp [insertDocIgnore, h]

theorem insertDocsIgnore_produtos (eid : Nat) (t : Date) :
    ∀ (ds : List DocRaw) (db : DB), (insertDocsIgnore db eid t ds).produtos = db.produtos := by
  intro ds
  induction ds with
  | nil => intro db; rfl
  | cons d ds ih =>
      intro db
      show (insertDocsIgnore (insertDocIgnore db eid t d) eid t ds).produtos = _
      rw [ih, insertDocIgnore_produtos]

theorem insertDocsIgnore_vendas (eid : Nat) (t : Date) :
    ∀ (ds : List DocRaw) (db : DB), (insertDocsIgnore db eid t ds).vendas = db.vendas := by
  intro ds
  induction ds with
  | nil => intro db; rfl
  | cons d ds ih =>
      intro db
      show (insertDocsIgnore (insertDocIgnore db eid t d) eid t ds).vendas = _
      rw [ih, insertDocIgnore_vendas]

theorem insertDocsIgnore_empresas (eid : Nat) (t : Date) :
    ∀ (ds : List DocRaw) (db : DB), (insertDocsIgnore db eid t ds).empresas = db.empresas := by
  intro ds
  induction ds with
  | nil => intro db; rfl
  | cons d ds ih =>
      intro db
      show (insertDocsIgnore (insertDocIgnore db eid t d) eid t ds).empresas = _
      rw [ih, insertDocIgnore_empresas]

theorem insertVendaIgnore_documentos (db : DB) (p : VendaPending) :
    (insertVendaIgnore db p).documentos = db.documentos := by
  by_cases h : vendaExists db p.documento_id p.produto_id <;> simp [insertVendaIgnore, h]

theorem insertVendaIgnore_produtos (db : DB) (p : VendaPending) :
    (insertVendaIgnore db p).produtos = db.produtos := by
  by_cases h : vendaExists db p.documento_id p.produto_id <;> simp [insertVendaIgnore, h]

theorem insertVendaIgnore_empresas (db : DB) (p : VendaPending) :
    (insertVendaIgnore db p).empresas = db.empresas := by
  by_cases h : vendaExists db p.documento_id p.produto_id <;> simp [insertVendaIgnore, h]

theorem insertVendasIgnore_documentos :
    ∀ (ps : List VendaPending) (db : DB), (insertVendasIgnore db ps).documentos = db.documentos := by
  intro ps
  induction ps with
  | nil => intro db; rfl
  | cons p ps ih =>
      intro db
      show (insertVendasIgnore (insertVendaIgnore db p) ps).documentos = _
      rw [ih, insertVendaIgnore_documentos]

theorem insertVendasIgnore_produtos :
    ∀ (ps : List VendaPending) (db : DB), (insertVendasIgnore db ps).produtos = db.produtos := by
  intro ps
  induction ps with
  | nil => intro db; rfl
  | cons p ps ih =>
      intro db
      show (insertVendasIgnore (insertVendaIgnore db p) ps).produtos = _
      rw [ih, insertVendaIgnore_produtos]

theorem insertVendasIgnore_empresas :
    ∀ (ps : List VendaPending) (db : DB), (insertVendasIgnore db ps).empresas = db.empresas := by
  intro ps
  induction ps with
  | nil => intro db; rfl
  | cons p ps ih =>
      intro db
      show (insertVendasIgnore (insertVendaIgnore db p) ps).empresas = _
      rw [ih, insertVendaIgnore_empresas]

theorem produtoExists_insert_mono (db : DB) (eid eid2 : Nat) (q : ProdutoRaw) (codigo : String)
    (h : produtoExists db eid codigo = true) :
    produtoExists (insertProdutoIgnore db eid2 q) eid codigo = true := by
  rw [insertProdutoIgnore]
  by_cases h2 : produtoExists db eid2 q.codigo_item
  · rw [if_pos h2]; exact h
  · rw [if_neg h2]
    rw [produtoExists] at h
    simp only [produtoExists, List.any_append, h, Bool.true_or]

theorem produtoExists_insertMany_mono (eid eid2 : Nat) (codigo : String) :
    ∀ (ps : List ProdutoRaw) (db : DB), produtoExists db eid codigo = true →
      produtoExists (insertProdutosIgnore db eid2 ps) eid codigo = true := by
  intro ps
  induction ps with
  | nil => intro db h; exact h
  | cons q ps ih =>
      intro db h
      exact ih (insertProdutoIgnore db eid2 q) (produtoExists_insert_mono db eid eid2 q codigo h)

theorem insertProdutoIgnore_self (db : DB) (eid : Nat) (p : ProdutoRaw) :
    produtoExists (insertProdutoIgnore db eid p) eid p.codigo_item = true := by
  rw [insertProdutoIgnore]
  by_cases h : produtoExists db eid p.codigo_item
  · rw [if_pos h]; exact h
  · rw [if_neg h]
    simp only [produtoExists, List.any_append]
    simp

theorem insertProdutosIgnore_ensures (eid : Nat) :
    ∀ (ps : List ProdutoRaw) (db : DB) (p : ProdutoRaw), p ∈ ps →
      produtoExists (insertProdutosIgnore db eid ps) eid p.codigo_item = true := by
  intro ps
  induction ps with
  | nil => intro db p h; simp at h
  | cons q ps ih =>
      intro db p h
      rcases List.mem_cons.mp h with rfl | h2
      · exact produtoExists_insertMany_mono eid eid p.codigo_item ps _
          (insertProdutoIgnore_self db eid p)
      · exact ih _ p h2

theorem insertProdutosIgnore_noop (eid : Nat) :
    ∀ (ps : List ProdutoRaw) (db : DB),
      (∀ p ∈ ps, produtoExists db eid p.codigo_item = true) →
      insertProdutosIgnore db eid ps = db := by
  intro ps
  induction ps with
  | nil => intro db _; rfl
  | cons q ps ih =>
      intro db h
      have hq : insertProdutoIgnore db eid q = db := by
        simp [insertProdutoIgnore, h q (List.mem_cons_self q ps)]
      show insertProdutosIgnore (insertProdutoIgnore db eid q) eid ps = db
      rw [hq]
      exact ih db (fun p hp => h p (List.mem_cons_of_mem q hp))

theorem docExists_insert_mono (db : DB) (eid eid2 : Nat) (t : Date) (q : DocRaw)
    (num serie : String) (h : docExists db eid num serie = true) :
    docExists (insertDocIgnore db eid2 t q) eid num serie = true := by
  rw [insertDocIgnore]
  by_cases h2 : docExists db eid2 q.num_documento q.serie
  · rw [if_pos h2]; exact h
  · rw [if_neg h2]
    rw [docExists] at h
    simp only [docExists, List.any_append, h, Bool.true_or]

theorem docExists_insertMany_mono (eid eid2 : Nat) (t : Date) (num serie : String) :
    ∀ (ds : List DocRaw) (db : DB), docExists db eid num serie = true →
      docExists (insertDocsIgnore db eid2 t ds) eid num serie = true := by
  intro ds
  induction ds with
  | nil => intro db h; exact h
  | cons q ds ih =>
      intro db h
      exact ih (insertDocIgnore db eid2 t q) (docExists_insert_mono db eid eid2 t q num serie h)

theorem insertDocIgnore_self (db : DB) (eid : Nat) (t : Date) (d : DocRaw) :
    docExists (insertDocIgnore db eid t d) eid d.num_documento d.serie = true := by
  rw [insertDocIgnore]
  by_cases h : docExists db eid d.num_documento d.serie
  · rw [if_pos h]; exact h
  · rw [if_neg h]
    simp only [docExists, List.any_append]
    simp

theorem insertDocsIgnore_ensures (eid : Nat) (t : Date) :
    ∀ (ds : List DocRaw) (db : DB) (d : DocRaw), d ∈ ds →
      docExists (insertDocsIgnore db eid t ds) eid d.num_documento d.serie = true := by
  intro ds
  induction ds with
  | nil => intro db d h; simp at h
  | cons q ds ih =>
      intro db d h
      rcases List.mem_cons.mp h with rfl | h2
      · exact docExists_insertMany_mono eid eid t d.num_documento d.serie ds _
          (insertDocIgnore_self db eid t d)
      · exact ih _ d h2

theorem insertDocsIgnore_noop (eid : Nat) (t : Date) :
    ∀ (ds : List DocRaw) (db : DB),
      (∀ d ∈ ds, docExists db eid d.num_documento d.serie = true) →
      insertDocsIgnore db eid t ds = db := by
  intro ds
  induction ds with
  | nil => intro db _; rfl
  | cons q ds ih =>
      intro db h
      have hq : insertDocIgnore db eid t q = db := by
        simp [insertDocIgnore, h q (List.mem_cons_self q ds)]
      show insertDocsIgnore (insertDocIgnore db eid t q) eid t ds = db
      rw [hq]
      exact ih db (fun d hd => h d (List.mem_cons_of_mem q hd))

theorem vendaExists_insert_mono (db : DB) (q : VendaPending) (di pi : Nat)
    (h : vendaExists db di pi = true) :
    vendaExists (insertVendaIgnore db q) di pi = true := by
  rw [insertVendaIgnore]
  by_cases h2 : vendaExists db q.documento_id q.produto_id
  · rw [if_pos h2]; exact h
  · rw [if_neg h2]
    rw [vendaExists] at h
    simp only [vendaExists, List.any_append, h, Bool.true_or]

theorem vendaExists_insertMany_mono (di pi : Nat) :
    ∀ (ps : List VendaPending) (db : DB), vendaExists db di pi = true →
      vendaExists (insertVendasIgnore db ps) di pi = true := by
  intro ps
  induction ps with
  | nil => intro db h; exact h
  | cons q ps ih =>
      intro db h
      exact ih (insertVendaIgnore db q) (vendaExists_insert_mono db q di pi h)

theorem insertVendaIgnore_self (db : DB) (p : VendaPending) :
    vendaExists (insertVendaIgnore db p) p.documento_id p.produto_id = true := by
  rw [insertVendaIgnore]
  by_cases h : vendaExists db p.documento_id p.produto_id
  · rw [if_pos h]; exact h
  · rw [if_neg h]
    simp only [vendaExists, List.any_append]
    simp

theorem insertVendasIgnore_ensures :
    ∀ (ps : List VendaPending) (db : DB) (p : VendaPending), p ∈ ps →
      vendaExists (insertVendasIgnore db ps) p.documento_id p.produto_id = true := by
  intro ps
  induction ps with
  | nil => intro db p h; simp at h
  | cons q ps ih =>
      intro db p h
      rcases List.mem_cons.mp h with rfl | h2
      · exact vendaExists_insertMany_mono p.documento_id p.produto_id ps _
          (insertVendaIgnore_self db p)
      · exact ih _ p h2

theorem insertVendasIgnore_noop :
    ∀ (ps : List VendaPending) (db : DB),
      (∀ p ∈ ps, vendaExists db p.documento_id p.produto_id = true) →
      insertVendasIgnore db ps = db := by
  intro ps
  induction ps with
  | nil => intro db _; rfl
  | cons q ps ih =>
      intro db h
      have hq : insertVendaIgnore db q = db := by
        simp [insertVendaIgnore, h q (List.mem_cons_self q ps)]
      show insertVendasIgnore (insertVendaIgnore db q) ps = db
      rw [hq]
      exact ih db (fun p hp => h p (List.mem_cons_of_mem q hp))

theorem mem_produtos_insertProdutosIgnore (eid : Nat) :
    ∀ (ps : List ProdutoRaw) (db : DB) (p : ProdutoRow), p ∈ db.produtos →
      p ∈ (insertProdutosIgnore db eid ps).produtos := by
  intro ps
  induction ps with
  | nil => intro db p h; exact h
  | cons q ps ih =>
      intro db p h
      apply ih
      by_cases h2 : produtoExists db eid q.codigo_item
      · simpa [insertProdutoIgnore, h2] using h
      · simp only [insertProdutoIgnore, if_neg h2]
        exact List.mem_append_left _ h

theorem mem_documentos_insertDocsIgnore (eid : Nat) (t : Date) :
    ∀ (ds : List DocRaw) (db : DB) (d : DocumentoRow), d ∈ db.documentos →
      d ∈ (insertDocsIgnore db eid t ds).documentos := by
  intro ds
  induction ds with
  | nil => intro db d h; exact h
  | cons q ds ih =>
      intro db d h
      apply ih
      by_cases h2 : docExists db eid q.num_documento q.serie
      · simpa [insertDocIgnore, h2] using h
      · simp only [insertDocIgnore, if_neg h2]
        exact List.mem_append_left _ h

/-! ## Same-company invariant (C9) -/

theorem mem_vendas_com_fk (ds : List DocumentoRow) (ps : List ProdutoRow) (eid : Nat)
    (vs : List VendaRaw) (t : Date) (r : VendaPending) :
    r ∈ vendas_com_fk ds ps eid vs t ↔
      ∃ v ∈ vs, ∃ di pi : Nat,
        doc_map_find ds eid v.num_documento v.serie = some di
          ∧ produto_map_find ps eid v.codigo_item = some pi
          ∧ di ≠ 0 ∧ pi ≠ 0 ∧ r = mkVendaPending v di pi t := by
  rw [vendas_com_fk, List.mem_filterMap]
  constructor
  · rintro ⟨v, hv, hf⟩
    refine ⟨v, hv, ?_⟩
    cases hd : doc_map_find ds eid v.num_documento v.serie with
    | none =>
        simp only [hd] at hf
        exact Option.noConfusion hf
    | some di =>
        cases hp : produto_map_find ps eid v.codigo_item with
        | none =>
            simp only [hd, hp] at hf
            exact Option.noConfusion hf
        | some pi =>
            simp only [hd, hp] at hf
            by_cases hz : (decide (di ≠ 0) && decide (pi ≠ 0)) = true
            · rw [if_pos hz] at hf
              obtain ⟨h1, h2⟩ := Bool.and_eq_true_iff.mp hz
              exact ⟨di, pi, rfl, rfl, of_decide_eq_true h1, of_decide_eq_true h2,
                (Option.some.inj hf).symm⟩
            · rw [if_neg hz] at hf
              cases hf
  · rintro ⟨v, hv, di, pi, hd, hp, h1, h2, rfl⟩
    refine ⟨v, hv, ?_⟩
    simp only [hd, hp]
    have hz : (decide (di ≠ 0) && decide (pi ≠ 0)) = true := by simp [h1, h2]
    rw [if_pos hz]

theorem doc_map_find_some (ds : List DocumentoRow) (eid : Nat) (num serie : String) (i : Nat)
    (h : doc_map_find ds eid num serie = some i) :
    ∃ d ∈ ds, d.id = i ∧ d.empresa_id = eid := by
  rw [doc_map_find] at h
  cases hf : (ds.filter (fun d => d.empresa_id = eid)).reverse.find?
      (fun d => d.num_documento = num && d.serie = serie) with
  | none => rw [hf] at h; cases h
  | some drow =>
      rw [hf] at h
      simp only [Option.map_some'] at h
      have hid : drow.id = i := Option.some.inj h
      have hmem : drow ∈ (ds.filter (fun d => d.empresa_id = eid)).reverse :=
        List.mem_of_find?_eq_some hf
      rw [List.mem_reverse] at hmem
      have hm2 := List.mem_filter.mp hmem
      exact ⟨drow, hm2.1, hid, of_decide_eq_true hm2.2⟩

theorem produto_map_find_some (ps : List ProdutoRow) (eid : Nat) (codigo : String) (i : Nat)
    (h : produto_map_find ps eid codigo = some i) :
    ∃ p ∈ ps, p.id = i ∧ p.empresa_id = eid := by
  rw [produto_map_find] at h
  cases hf : (ps.filter (fun p => p.empresa_id = eid)).reverse.find?
      (fun p => p.codigo_item = codigo) with
  | none => rw [hf] at h; cases h
  | some prow =>
      rw [hf] at h
      simp only [Option.map_some'] at h
      have hid : prow.id = i := Option.some.inj h
      have hmem : prow ∈ (ps.filter (fun p => p.empresa_id = eid)).reverse :=
        List.mem_of_find?_eq_some hf
      rw [List.mem_reverse] at hmem
      have hm2 := List.mem_filter.mp hmem
      exact ⟨prow, hm2.1, hid, of_decide_eq_true hm2.2⟩

/-- The data-model invariant of C9: a sale row's document and product rows
exist and belong to the same company. -/
def VendaOk (documentos : List DocumentoRow) (produtos : List ProdutoRow) (v : VendaRow) : Prop :=
  ∃ d ∈ documentos, ∃ p ∈ produtos,
    d.id = v.documento_id ∧ p.id = v.produto_id ∧ d.empresa_id = p.empresa_id

/-- Every persisted sale satisfies `VendaOk`. -/
def SameEmpresaInv (db : DB) : Prop := ∀ v ∈ db.vendas, VendaOk db.documentos db.produtos v

theorem VendaOk_mono {ds ds' : List DocumentoRow} {ps ps' : List ProdutoRow} {v : VendaRow}
    (hd : ∀ d ∈ ds, d ∈ ds') (hp : ∀ p ∈ ps, p ∈ ps') (h : VendaOk ds ps v) :
    VendaOk ds' ps' v := by
  obtain ⟨d, hdm, p, hpm, h1, h2, h3⟩ := h
  exact ⟨d, hd d hdm, p, hp p hpm, h1, h2, h3⟩

theorem insertVendasIgnore_inv :
    ∀ (ps : List VendaPending) (db : DB),
      (∀ v ∈ db.vendas, VendaOk db.documentos db.produtos v) →
      (∀ r ∈ ps, ∃ d ∈ db.documentos, ∃ p ∈ db.produtos,
          d.id = r.documento_id ∧ p.id = r.produto_id ∧ d.empresa_id = p.empresa_id) →
      ∀ v ∈ (insertVendasIgnore db ps).vendas, VendaOk db.documentos db.produtos v := by
  intro ps
  induction ps with
  | nil => intro db hinv _ v hv; exact hinv v hv
  | cons q ps ih =>
      intro db hinv hpend v hv
      have hstep : ∀ w ∈ (insertVendaIgnore db q).vendas,
          VendaOk (insertVendaIgnore db q).documentos (insertVendaIgnore db q).produtos w := by
        intro w hw
        rw [insertVendaIgnore_documentos, insertVendaIgnore_produtos]
        rw [insertVendaIgnore] at hw
        by_cases hex : vendaExists db q.documento_id q.produto_id
        · rw [if_pos hex] at hw
          exact hinv w hw
        · rw [if_neg hex] at hw
          rcases List.mem_append.mp hw with hmem | hmem
          · exact hinv w hmem
          · rw [List.mem_singleton] at hmem
            subst hmem
            obtain ⟨d, hd, p, hp, h1, h2, h3⟩ := hpend q (List.mem_cons_self q ps)
            exact ⟨d, hd, p, hp, h1, h2, h3⟩
      have hpend' : ∀ r ∈ ps, ∃ d ∈ (insertVendaIgnore db q).documentos,
          ∃ p ∈ (insertVendaIgnore db q).produtos,
            d.id = r.documento_id ∧ p.id = r.produto_id ∧ d.empresa_id = p.empresa_id := by
        intro r hr
        rw [insertVendaIgnore_documentos, insertVendaIgnore_produtos]
        exact hpend r (List.mem_cons_of_mem q hr)
      have hres := ih (insertVendaIgnore db q) hstep hpend' v hv
      rwa [insertVendaIgnore_documentos, insertVendaIgnore_produtos] at hres

theorem import_with_empresa_inv (dbA : DB) (eid : Nat) (P : List ProdutoRaw) (D : List DocRaw)
    (V : List VendaRaw) (today : Date) (er : Nat) (flag : Bool)
    (hinv : SameEmpresaInv dbA) :
    SameEmpresaInv (import_with_empresa dbA eid P D V today er flag).2 := by
  simp only [import_with_empresa]
  intro v hv
  rw [insertVendasIgnore_documentos, insertVendasIgnore_produtos]
  apply insertVendasIgnore_inv _ _ ?hinv3 ?hpendok v hv
  case hinv3 =>
    intro w hw
    have hv3 : (insertDocsIgnore (insertProdutosIgnore dbA eid P) eid today D).vendas
        = dbA.vendas := by
      rw [insertDocsIgnore_vendas, insertProdutosIgnore_vendas]
    rw [hv3] at hw
    apply VendaOk_mono ?_ ?_ (hinv w hw)
    · intro d hd
      apply mem_documentos_insertDocsIgnore
      rw [insertProdutosIgnore_documentos]
      exact hd
    · intro p hp
      rw [insertDocsIgnore_produtos]
      exact mem_produtos_insertProdutosIgnore eid P dbA p hp
  case hpendok =>
    intro r hr
    obtain ⟨v', hv', di, pi, hd, hp, h1, h2, rfl⟩ := (mem_vendas_com_fk _ _ _ _ _ _).mp hr
    obtain ⟨d, hdm, hdid, hde⟩ := doc_map_find_some _ _ _ _ _ hd
    obtain ⟨p, hpm, hpid, hpe⟩ := produto_map_find_some _ _ _ _ hp
    refine ⟨d, hdm, p, hpm, ?_, ?_, ?_⟩
    · simpa [mkVendaPending] using hdid
    · simpa [mkVendaPending] using hpid
    · rw [hde, hpe]

/-- C9.  Every sale row persisted by any import references a document and a
product of the same company: `SameEmpresaInv` is preserved by
`import_sped_file`. -/
theorem import_resolved_inv (db db1 : DB) (e : EmpresaRow) (isnew : Bool) (sel : Option Nat)
    (P : List ProdutoRaw) (D : List DocRaw) (V : List VendaRaw) (today : Date) (er : Nat)
    (hinv : SameEmpresaInv db) (hinv1 : SameEmpresaInv db1) :
    SameEmpresaInv (import_resolved db db1 e isnew sel P D V today er).2 := by
  cases isnew with
  | true => exact import_with_empresa_inv db1 e.id P D V today er true hinv1
  | false =>
      cases sel with
      | none => exact import_with_empresa_inv db1 e.id P D V today er false hinv1
      | some sel_id =>
          by_cases hcond : (decide (sel_id ≠ 0) && decide (e.id ≠ sel_id)) = true
          · simp only [import_resolved]
            rw [if_pos hcond]
            cases hes : db1.empresas.find? (fun e2 => e2.id = sel_id) with
            | some es => exact hinv
            | none => exact hinv
          · simp only [import_resolved]
            rw [if_neg hcond]
            exact import_with_empresa_inv db1 e.id P D V today er false hinv1

/-- C9.  Every sale row persisted by any import references a document and a
product of the same company: `SameEmpresaInv` is preserved by
`import_sped_file`. -/
theorem claim_C9_same_empresa (lines : List String) (sel : Option Nat) (today : Date) (db : DB)
    (hinv : SameEmpresaInv db) :
    SameEmpresaInv (import_sped_file lines sel today db).2 := by
  rw [import_sped_file]
  split
  · exact hinv
  · split
    · exact hinv
    next cnpj hcnpj =>
      split
      · exact hinv
      next hce =>
        split
        next e isnew db1 heq =>
          have hframe : db1.vendas = db.vendas ∧ db1.documentos = db.documentos
              ∧ db1.produtos = db.produtos := by
            have h2 := congrArg Prod.snd heq
            rw [get_or_create_empresa] at h2
            cases hf : db.empresas.find? (fun e2 => e2.cnpj = cnpj_limpo cnpj) with
            | some e2 =>
                simp only [hf] at h2
                rw [← h2]
                exact ⟨rfl, rfl, rfl⟩
            | none =>
                simp only [hf] at h2
                rw [← h2]
                exact ⟨rfl, rfl, rfl⟩
          have hinv1 : SameEmpresaInv db1 := by
            intro v hv
            rw [hframe.2.1, hframe.2.2]
            exact hinv v (hframe.1 ▸ hv)
          exact import_resolved_inv db db1 e isnew sel _ _ _ today _ hinv hinv1

/-- Witness for C9: the invariant holds for the empty database and is
preserved by a concrete import into it. -/
theorem claim_C9_witness :
    SameEmpresaInv emptyDB
      ∧ SameEmpresaInv (import_sped_file c2Lines none today0 emptyDB).2 := by
  have h0 : SameEmpresaInv emptyDB := by
    intro v hv
    simp [emptyDB] at hv
  exact ⟨h0, claim_C9_same_empresa c2Lines none today0 emptyDB h0⟩

/-! ## Idempotent import (C4) -/

theorem import_with_empresa_empresas (dbA : DB) (eid : Nat) (P : List ProdutoRaw)
    (D : List DocRaw) (V : List VendaRaw) (today : Date) (er : Nat) (flag : Bool) :
    ((import_with_empresa dbA eid P D V today er flag).2).empresas = dbA.empresas := by
  simp only [import_with_empresa]
  rw [insertVendasIgnore_empresas, insertDocsIgnore_empresas, insertProdutosIgnore_empresas]

/-- Re-running the bulk load of the same deduplicated lists on the state left
by a first run inserts nothing: every natural key already exists, so all three
insert-or-ignore passes are no-ops and every delta count is zero. -/
theorem import_with_empresa_snd_idem (dbA : DB) (eid : Nat) (P : List ProdutoRaw)
    (D : List DocRaw) (V : List VendaRaw) (today today' : Date) (er : Nat) (flag : Bool) :
    import_with_empresa ((import_with_empresa dbA eid P D V today er flag).2) eid P D V
        today' er false
      = (.ok false eid 0 0 0 er, (import_with_empresa dbA eid P D V today er flag).2) := by
  set db2 := insertProdutosIgnore dbA eid P with hdb2
  set db3 := insertDocsIgnore db2 eid today D with hdb3
  set pend := vendas_com_fk db3.documentos db3.produtos eid V today with hpend
  set s1 := insertVendasIgnore db3 pend with hs1
  have hsnd : (import_with_empresa dbA eid P D V today er flag).2 = s1 := rfl
  rw [hsnd]
  have hprod : s1.produtos = db3.produtos := insertVendasIgnore_produtos pend db3
  have hdocm : s1.documentos = db3.documentos := insertVendasIgnore_documentos pend db3
  have hprod23 : db3.produtos = db2.produtos := insertDocsIgnore_produtos eid today D db2
  have hC : ∀ p ∈ P, produtoExists s1 eid p.codigo_item = true := by
    intro p hp
    have hx := insertProdutosIgnore_ensures eid P dbA p hp
    rw [produtoExists] at hx ⊢
    rw [hprod, hprod23]
    exact hx
  have hD : ∀ d ∈ D, docExists s1 eid d.num_documento d.serie = true := by
    intro d hd
    have hx := insertDocsIgnore_ensures eid today D db2 d hd
    rw [docExists] at hx ⊢
    rw [hdocm]
    exact hx
  have hnoopP : insertProdutosIgnore s1 eid P = s1 := insertProdutosIgnore_noop eid P s1 hC
  have hnoopD : insertDocsIgnore s1 eid today' D = s1 := insertDocsIgnore_noop eid today' D s1 hD
  have hpend2 : vendas_com_fk s1.documentos s1.produtos eid V today'
      = vendas_com_fk db3.documentos db3.produtos eid V today' := by
    rw [hdocm, hprod]
  have hH : ∀ r ∈ vendas_com_fk s1.documentos s1.produtos eid V today',
      vendaExists s1 r.documento_id r.produto_id = true := by
    intro r hr
    rw [hpend2] at hr
    obtain ⟨v, hv, di, pi, hdm, hpm, h1, h2, rfl⟩ := (mem_vendas_com_fk _ _ _ _ _ _).mp hr
    have hr' : mkVendaPending v di pi today ∈ pend := by
      rw [hpend]
      exact (mem_vendas_com_fk _ _ _ _ _ _).mpr ⟨v, hv, di, pi, hdm, hpm, h1, h2, rfl⟩
    have hx := insertVendasIgnore_ensures pend db3 (mkVendaPending v di pi today) hr'
    simpa [mkVendaPending] using hx
  have hnoopV : insertVendasIgnore s1 (vendas_com_fk s1.documentos s1.produtos eid V today')
      = s1 := insertVendasIgnore_noop _ s1 hH
  simp only [import_with_empresa]
  rw [hnoopP, hnoopD, hnoopV]
  simp [Nat.sub_self]

/-- C4.  If an import of a file succeeds, importing the same file again
succeeds, reports zero newly inserted documents, products and sale items
(with the same warning count), and leaves the database byte-for-byte as the
first run left it — no row is overwritten. -/
theorem claim_C4_idempotent_import (lines : List String) (today today' : Date) (db : DB)
    (nova : Bool) (eid nd np nv av : Nat) (s1 : DB)
    (h : import_sped_file lines none today db = (.ok nova eid nd np nv av, s1)) :
    import_sped_file lines none today' s1 = (.ok false eid 0 0 0 av, s1) := by
  rw [import_sped_file] at h ⊢
  by_cases h0 : ((dedupLast docKey (parseLines lines).documentos_raw).isEmpty
      && (dedupLast vendaKey (parseLines lines).vendas_raw).isEmpty) = true
  · rw [if_pos h0] at h
    simp at h
  · rw [if_neg h0] at h ⊢
    cases hc : (parseLines lines).empresa_sped.cnpj with
    | none =>
        simp only [hc] at h
        simp at h
    | some c =>
        simp only [hc] at h ⊢
        by_cases hce : c = ""
        · rw [if_pos hce] at h
          simp at h
        · rw [if_neg hce] at h ⊢
          cases hf : db.empresas.find? (fun e2 => e2.cnpj = cnpj_limpo c) with
          | some e =>
              have hgo : get_or_create_empresa db c
                  ((parseLines lines).empresa_sped.razao_social.getD "Empresa Desconhecida")
                  (parseLines lines).empresa_sped.inscricao_estadual
                  (parseLines lines).empresa_sped.uf = ((e, false), db) := by
                rw [get_or_create_empresa, hf]
              simp only [hgo, import_resolved] at h
              have hs1 : s1 = (import_with_empresa db e.id
                  (dedupLast produtoKey (parseLines lines).produtos_raw)
                  (dedupLast docKey (parseLines lines).documentos_raw)
                  (dedupLast vendaKey (parseLines lines).vendas_raw) today
                  (parseLines lines).erros false).2 := (congrArg Prod.snd h).symm
              have hfst := congrArg Prod.fst h
              simp only [import_with_empresa, ImportResult.ok.injEq] at hfst
              obtain ⟨hnova, heid, -, -, -, hav⟩ := hfst
              have hemp : s1.empresas = db.empresas := by
                rw [hs1]
                exact import_with_empresa_empresas db e.id _ _ _ today _ false
              have hgo2 : get_or_create_empresa s1 c
                  ((parseLines lines).empresa_sped.razao_social.getD "Empresa Desconhecida")
                  (parseLines lines).empresa_sped.inscricao_estadual
                  (parseLines lines).empresa_sped.uf = ((e, false), s1) := by
                rw [get_or_create_empresa, hemp, hf]
              simp only [hgo2, import_resolved]
              rw [← heid, ← hav, hs1]
              exact import_with_empresa_snd_idem db e.id _ _ _ today today' _ false
          | none =>
              have hgo : get_or_create_empresa db c
                  ((parseLines lines).empresa_sped.razao_social.getD "Empresa Desconhecida")
                  (parseLines lines).empresa_sped.inscricao_estadual
                  (parseLines lines).empresa_sped.uf
                  = ((⟨db.next_empresa_id, cnpj_limpo c,
                        (parseLines lines).empresa_sped.razao_social.getD "Empresa Desconhecida",
                        (parseLines lines).empresa_sped.inscricao_estadual,
                        (parseLines lines).empresa_sped.uf⟩, true),
                     { db with
                        empresas := db.empresas ++
                          [⟨db.next_empresa_id, cnpj_limpo c,
                            (parseLines lines).empresa_sped.razao_social.getD
                              "Empresa Desconhecida",
                            (parseLines lines).empresa_sped.inscricao_estadual,
                            (parseLines lines).empresa_sped.uf⟩],
                        next_empresa_id := db.next_empresa_id + 1 }) := by
                rw [get_or_create_empresa, hf]
              simp only [hgo, import_resolved] at h
              have hs1 : s1 = (import_with_empresa
                  { db with
                      empresas := db.empresas ++
                        [⟨db.next_empresa_id, cnpj_limpo c,
                          (parseLines lines).empresa_sped.razao_social.getD
                            "Empresa Desconhecida",
                          (parseLines lines).empresa_sped.inscricao_estadual,
                          (parseLines lines).empresa_sped.uf⟩],
                      next_empresa_id := db.next_empresa_id + 1 }
                  db.next_empresa_id
                  (dedupLast produtoKey (parseLines lines).produtos_raw)
                  (dedupLast docKey (parseLines lines).documentos_raw)
                  (dedupLast vendaKey (parseLines lines).vendas_raw) today
                  (parseLines lines).erros true).2 := (congrArg Prod.snd h).symm
              have hfst := congrArg Prod.fst h
              simp only [import_with_empresa, ImportResult.ok.injEq] at hfst
              obtain ⟨hnova, heid, -, -, -, hav⟩ := hfst
              have hemp : s1.empresas = db.empresas ++
                  [⟨db.next_empresa_id, cnpj_limpo c,
                    (parseLines lines).empresa_sped.razao_social.getD "Empresa Desconhecida",
                    (parseLines lines).empresa_sped.inscricao_estadual,
                    (parseLines lines).empresa_sped.uf⟩] := by
                rw [hs1]
                exact import_with_empresa_empresas _ _ _ _ _ today _ true
              have hfind2 : s1.empresas.find? (fun e2 => e2.cnpj = cnpj_limpo c)
                  = some ⟨db.next_empresa_id, cnpj_limpo c,
                      (parseLines lines).empresa_sped.razao_social.getD "Empresa Desconhecida",
                      (parseLines lines).empresa_sped.inscricao_estadual,
                      (parseLines lines).empresa_sped.uf⟩ := by
                rw [hemp, List.find?_append, hf]
                simp
              have hgo2 : get_or_create_empresa s1 c
                  ((parseLines lines).empresa_sped.razao_social.getD "Empresa Desconhecida")
                  (parseLines lines).empresa_sped.inscricao_estadual
                  (parseLines lines).empresa_sped.uf
                  = ((⟨db.next_empresa_id, cnpj_limpo c,
                        (parseLines lines).empresa_sped.razao_social.getD "Empresa Desconhecida",
                        (parseLines lines).empresa_sped.inscricao_estadual,
                        (parseLines lines).empresa_sped.uf⟩, false), s1) := by
                rw [get_or_create_empresa, hfind2]
              simp only [hgo2, import_resolved]
              rw [← heid, ← hav, hs1]
              exact import_with_empresa_snd_idem _ _ _ _ _ today today' _ true

/-- Witness for C4: a concrete successful import, immediately repeated,
reports zero new rows and leaves the state identical. -/
theorem claim_C4_witness :
    import_sped_file c2Lines none today0 emptyDB
        = (.ok true 1 1 1 1 0, (import_sped_file c2Lines none today0 emptyDB).2)
      ∧ import_sped_file c2Lines none today0 (import_sped_file c2Lines none today0 emptyDB).2
        = (.ok false 1 0 0 0 0, (import_sped_file c2Lines none today0 emptyDB).2) := by
  refine ⟨by decide, ?_⟩
  exact claim_C4_idempotent_import c2Lines today0 today0 emptyDB true 1 1 1 1 0
    (import_sped_file c2Lines none today0 emptyDB).2 (by decide)
